import Mathlib

/-!
# user-service: registration, login, refresh-token rotation and the JWT middleware

A shallow embedding of `internal/models`, `internal/repository/user_repository.go`,
`internal/services/user_service.go`, `JWTAuthMiddleware` of `internal/middleware` and the
`Register` and `Login` methods of `internal/handlers/user_handler.go`.

* Go strings are `String`; `time.Time` is a `Nat` (whole seconds since the epoch, so
  `Time.Unix()` is the identity); every operation reads the clock at one instant `now`.
* The relational store is a pair of row lists; a `QueryRow(..).Scan(..)` reads the first
  matching row, `sql.ErrNoRows` is the absence of such a row.
* The packages `bcrypt`, `jwt`, `uuid`, `validator` and `gin` are outside the repository:
  the primitives of the first two are the fields of `Lib`, the validator is a `Validator`,
  the values drawn from `uuid.New()` (and the bcrypt salt) and the outcome of
  `ShouldBindJSON` are arguments, and what a handler leaves in the `gin.Context` is a
  `Context` or a `Response`.
* Every call that leaves the service (to the repository, the hasher, the signer) is recorded
  in `World.calls`, oldest first.
-/

deriving instance DecidableEq for Except

namespace UserService

/-! ## internal/models/user.go -/

/-- The Go struct `models.User`. -/
structure User where
  ID : String
  Email : String
  Username : String
  Password : String
  Role : String
  IsActive : Bool
  CreatedAt : Nat
  UpdatedAt : Nat
deriving DecidableEq, Repr

/-- The Go struct `models.CreateUserRequest`. -/
structure CreateUserRequest where
  Email : String
  Username : String
  Password : String
  Role : String
deriving DecidableEq, Repr

/-- The Go struct `models.LoginRequest`. -/
structure LoginRequest where
  Email : String
  Password : String
deriving DecidableEq, Repr

/-- The Go struct `models.LoginResponse`. -/
structure LoginResponse where
  AccessToken : String
  RefreshToken : String
  User : User
deriving DecidableEq, Repr

/-- The Go struct `models.UserSession`. -/
structure UserSession where
  ID : String
  UserID : String
  RefreshToken : String
  ExpiresAt : Nat
  CreatedAt : Nat
  IPAddress : String
  UserAgent : String
deriving DecidableEq, Repr

/-! ## Collaborators outside the repository -/

/-- A value of a `jwt.MapClaims` entry. -/
inductive ClaimVal where
  | str (s : String)
  | num (n : Nat)
deriving DecidableEq, Repr

/-- The Go type `jwt.MapClaims`, as the list of its entries. -/
abbrev MapClaims := List (String × ClaimVal)

/-- A registered `jwt.SigningMethod`: the `*jwt.SigningMethodHMAC` values (HS256, HS384,
HS512), or a method of another Go type (RSA, ECDSA, none, ...). -/
inductive SigningMethod where
  | HMAC (name : String)
  | other (name : String)
deriving DecidableEq, Repr

/-- The value `jwt.SigningMethodHS256`. -/
def SigningMethodHS256 : SigningMethod := .HMAC "HS256"

/-- The fields of a `jwt.Token` that the repository reads. -/
structure Token where
  Method : SigningMethod
  Claims : MapClaims
deriving DecidableEq, Repr

/-- The functions of `golang.org/x/crypto/bcrypt` and `github.com/golang-jwt/jwt/v5` that the
repository calls. `GenerateFromPassword pw cost salt` is the hash (or the error text);
`CompareHashAndPassword hash pw` is `true` when the Go call returns a nil error;
`SignedString m key claims` is `jwt.NewWithClaims(m, claims).SignedString(key)`, the compact
token (or the error text); `Verify key token` tells whether the signature of `token`
verifies under `key`; `ParseUnverified token` decodes the header and the claims of a
well-formed token without checking anything. -/
structure Lib where
  GenerateFromPassword : String → Nat → String → Except String String
  CompareHashAndPassword : String → String → Bool
  SignedString : SigningMethod → String → MapClaims → Except String String
  Verify : String → String → Bool
  ParseUnverified : String → Option Token

/-- The constant `bcrypt.DefaultCost`. -/
def DefaultCost : Nat := 10

/-- The constant `time.Hour`, in seconds. -/
def Hour : Nat := 3600

/-- An error reported by the database driver. -/
inductive DbError where
  | uniqueViolation (constraint : String)
  | foreignKeyViolation (constraint : String)
deriving DecidableEq, Repr

/-- A Go `error` value as the service returns it: `errors.New msg`, or an error handed on
unchanged from the store, from bcrypt or from the signer. -/
inductive Err where
  | New (msg : String)
  | db (e : DbError)
  | bcrypt (msg : String)
  | jwt (msg : String)
deriving DecidableEq, Repr

/-! ## The store -/

/-- The two tables the repository's statements read and write. -/
structure DB where
  users : List User
  user_sessions : List UserSession
deriving DecidableEq, Repr

/-- A call that leaves the service. -/
inductive Call where
  | GetByEmail (email : String)
  | GetByUsername (username : String)
  | GetByID (id : String)
  | Create (user : User)
  | Delete (id : String)
  | CreateSession (session : UserSession)
  | GetSessionByRefreshToken (token : String)
  | DeleteSession (sessionID : String)
  | GenerateFromPassword (password : String)
  | CompareHashAndPassword (hash password : String)
  | SignedString (claims : MapClaims)
deriving DecidableEq, Repr

/-- The database together with the record of the calls made so far. -/
structure World where
  db : DB
  calls : List Call
deriving DecidableEq, Repr

/-- Record one call. -/
def World.log (w : World) (c : Call) : World :=
  { db := w.db, calls := w.calls ++ [c] }

/-- Modelled from the spec: the table `users(id PK, email UNIQUE, username UNIQUE, ...)` of
the persisted schema (section 6), which is the column set the repository's statements name;
the `CREATE TABLE` text of `internal/database` declares other columns. An `INSERT` is
refused when it would repeat a primary key or a unique column. -/
def insertUser (db : DB) (u : User) : Except DbError DB :=
  if ∃ x ∈ db.users, x.ID = u.ID then .error (.uniqueViolation "users_pkey")
  else if ∃ x ∈ db.users, x.Email = u.Email then .error (.uniqueViolation "users_email_key")
  else if ∃ x ∈ db.users, x.Username = u.Username then
    .error (.uniqueViolation "users_username_key")
  else .ok { db with users := db.users ++ [u] }

/-- Modelled from the spec: the table
`sessions(id PK, user_id FK, refresh_token UNIQUE, ...)` of the persisted schema
(section 6), under the name `user_sessions` the repository's statements use. -/
def insertSession (db : DB) (s : UserSession) : Except DbError DB :=
  if ∃ x ∈ db.user_sessions, x.ID = s.ID then .error (.uniqueViolation "user_sessions_pkey")
  else if ∃ x ∈ db.user_sessions, x.RefreshToken = s.RefreshToken then
    .error (.uniqueViolation "user_sessions_refresh_token_key")
  else if ¬ ∃ u ∈ db.users, u.ID = s.UserID then
    .error (.foreignKeyViolation "user_sessions_user_id_fkey")
  else .ok { db with user_sessions := db.user_sessions ++ [s] }

/-! ## internal/repository/user_repository.go -/

/-- Method `userRepository.Create`: stamps id and timestamps on the user, then inserts the row.
The stamped user is returned in either case (the Go code writes through the pointer). -/
def Create (uuid : String) (now : Nat) (user : User) (w : World) :
    User × Except DbError Unit × World :=
  let user := { user with ID := uuid, CreatedAt := now, UpdatedAt := now }
  let w := w.log (.Create user)
  match insertUser w.db user with
  | .error e => (user, .error e, w)
  | .ok db => (user, .ok (), { w with db := db })

/-- Method `userRepository.GetByID`: `SELECT ... FROM users WHERE id = $1`. -/
def GetByID (id : String) (w : World) : Except DbError (Option User) × World :=
  (.ok (w.db.users.find? (fun u => u.ID == id)), w.log (.GetByID id))

/-- Method `userRepository.GetByEmail`: `SELECT ... FROM users WHERE email = $1`. -/
def GetByEmail (email : String) (w : World) : Except DbError (Option User) × World :=
  (.ok (w.db.users.find? (fun u => u.Email == email)), w.log (.GetByEmail email))

/-- Method `userRepository.GetByUsername`: `SELECT ... FROM users WHERE username = $1`. -/
def GetByUsername (username : String) (w : World) : Except DbError (Option User) × World :=
  (.ok (w.db.users.find? (fun u => u.Username == username)), w.log (.GetByUsername username))

/-- Method `userRepository.Delete`:
`UPDATE users SET is_active = false, updated_at = $1 WHERE id = $2`. -/
def Delete (now : Nat) (id : String) (w : World) : Except DbError Unit × World :=
  let w := w.log (.Delete id)
  let users := w.db.users.map (fun u =>
    if u.ID = id then { u with IsActive := false, UpdatedAt := now } else u)
  (.ok (), { w with db := { w.db with users := users } })

/-- Method `userRepository.CreateSession`: stamps id and creation time, then inserts the row. -/
def CreateSession (uuid : String) (now : Nat) (session : UserSession) (w : World) :
    UserSession × Except DbError Unit × World :=
  let session := { session with ID := uuid, CreatedAt := now }
  let w := w.log (.CreateSession session)
  match insertSession w.db session with
  | .error e => (session, .error e, w)
  | .ok db => (session, .ok (), { w with db := db })

/-- Method `userRepository.GetSessionByRefreshToken`:
`SELECT ... FROM user_sessions WHERE refresh_token = $1 AND expires_at > NOW()`. -/
def GetSessionByRefreshToken (now : Nat) (token : String) (w : World) :
    Except DbError (Option UserSession) × World :=
  (.ok (w.db.user_sessions.find? (fun s => s.RefreshToken == token && decide (s.ExpiresAt > now))),
    w.log (.GetSessionByRefreshToken token))

/-- Method `userRepository.DeleteSession`: `DELETE FROM user_sessions WHERE id = $1`. -/
def DeleteSession (sessionID : String) (w : World) : Except DbError Unit × World :=
  let w := w.log (.DeleteSession sessionID)
  let rows := w.db.user_sessions.filter (fun s => s.ID != sessionID)
  (.ok (), { w with db := { w.db with user_sessions := rows } })

/-! ## internal/services/user_service.go -/

/-- The `jwt.MapClaims` literal of `generateAccessToken`. -/
def accessClaims (now : Nat) (user : User) : MapClaims :=
  [("sub", .str user.ID), ("email", .str user.Email), ("role", .str user.Role),
   ("exp", .num (now + 24 * Hour)), ("iat", .num now)]

/-- The `jwt.MapClaims` literal of `generateRefreshToken`. -/
def refreshClaims (now : Nat) (jti : String) (user : User) : MapClaims :=
  [("sub", .str user.ID), ("type", .str "refresh"), ("exp", .num (now + 30 * 24 * Hour)),
   ("iat", .num now), ("jti", .str jti)]

/-- Method `userService.generateAccessToken`; `secret` is `os.Getenv("JWT_SECRET")`. -/
def generateAccessToken (L : Lib) (secret : String) (now : Nat) (user : User) (w : World) :
    Except Err String × World :=
  let claims := accessClaims now user
  let w := w.log (.SignedString claims)
  match L.SignedString SigningMethodHS256 secret claims with
  | .ok t => (.ok t, w)
  | .error m => (.error (.jwt m), w)

/-- Method `userService.generateRefreshToken`; `jti` is the string of the `uuid.New()` drawn. -/
def generateRefreshToken (L : Lib) (secret : String) (now : Nat) (jti : String) (user : User)
    (w : World) : Except Err String × World :=
  let claims := refreshClaims now jti user
  let w := w.log (.SignedString claims)
  match L.SignedString SigningMethodHS256 secret claims with
  | .ok t => (.ok t, w)
  | .error m => (.error (.jwt m), w)

/-- Method `userService.Register`; `uuid` is the id drawn inside `Create`, `salt` the bcrypt salt. -/
def Register (L : Lib) (now : Nat) (uuid salt : String) (req : CreateUserRequest)
    (w : World) : Except Err User × World :=
  match GetByEmail req.Email w with
  | (.error e, w) => (.error (.db e), w)
  | (.ok (some _), w) => (.error (.New "user with this email already exists"), w)
  | (.ok none, w) =>
    match GetByUsername req.Username w with
    | (.error e, w) => (.error (.db e), w)
    | (.ok (some _), w) => (.error (.New "user with this username already exists"), w)
    | (.ok none, w) =>
      let w := w.log (.GenerateFromPassword req.Password)
      match L.GenerateFromPassword req.Password DefaultCost salt with
      | .error m => (.error (.bcrypt m), w)
      | .ok hashedPassword =>
        let role := if req.Role = "" then "user" else req.Role
        let user : User :=
          { ID := "", Email := req.Email, Username := req.Username, Password := hashedPassword,
            Role := role, IsActive := true, CreatedAt := 0, UpdatedAt := 0 }
        match Create uuid now user w with
        | (_, .error e, w) => (.error (.db e), w)
        | (user, .ok (), w) => (.ok { user with Password := "" }, w)

/-- Method `userService.Login`; `jti` is the id drawn for the refresh token, `sid` the one drawn
inside `CreateSession`. -/
def Login (L : Lib) (secret : String) (now : Nat) (jti sid : String) (req : LoginRequest)
    (w : World) : Except Err LoginResponse × World :=
  match GetByEmail req.Email w with
  | (.error e, w) => (.error (.db e), w)
  | (.ok none, w) => (.error (.New "invalid credentials"), w)
  | (.ok (some user), w) =>
    if !user.IsActive then (.error (.New "account is deactivated"), w)
    else
      let w := w.log (.CompareHashAndPassword user.Password req.Password)
      if !L.CompareHashAndPassword user.Password req.Password then
        (.error (.New "invalid credentials"), w)
      else
        match generateAccessToken L secret now user w with
        | (.error e, w) => (.error e, w)
        | (.ok accessToken, w) =>
          match generateRefreshToken L secret now jti user w with
          | (.error e, w) => (.error e, w)
          | (.ok refreshToken, w) =>
            let session : UserSession :=
              { ID := "", UserID := user.ID, RefreshToken := refreshToken,
                ExpiresAt := now + 30 * 24 * Hour, CreatedAt := 0, IPAddress := "",
                UserAgent := "" }
            match CreateSession sid now session w with
            | (_, .error e, w) => (.error (.db e), w)
            | (_, .ok (), w) =>
              (.ok { AccessToken := accessToken, RefreshToken := refreshToken,
                     User := { user with Password := "" } }, w)

/-- Method `userService.GetUserByID`. -/
def GetUserByID (id : String) (w : World) : Except Err User × World :=
  match GetByID id w with
  | (.error e, w) => (.error (.db e), w)
  | (.ok none, w) => (.error (.New "user not found"), w)
  | (.ok (some user), w) => (.ok { user with Password := "" }, w)

/-- Method `userService.DeleteAccount`. -/
def DeleteAccount (now : Nat) (id : String) (w : World) : Except Err Unit × World :=
  match Delete now id w with
  | (.error e, w) => (.error (.db e), w)
  | (.ok (), w) => (.ok (), w)

/-- Method `userService.RefreshToken`; `jti` and `sid` as in `Login`. The result of
`DeleteSession` is dropped, as in the Go code. -/
def RefreshToken (L : Lib) (secret : String) (now : Nat) (jti sid : String)
    (refreshToken : String) (w : World) : Except Err LoginResponse × World :=
  match GetSessionByRefreshToken now refreshToken w with
  | (.error e, w) => (.error (.db e), w)
  | (.ok none, w) => (.error (.New "invalid refresh token"), w)
  | (.ok (some session), w) =>
    match GetByID session.UserID w with
    | (.error e, w) => (.error (.db e), w)
    | (.ok none, w) => (.error (.New "user not found or inactive"), w)
    | (.ok (some user), w) =>
      if !user.IsActive then (.error (.New "user not found or inactive"), w)
      else
        match generateAccessToken L secret now user w with
        | (.error e, w) => (.error e, w)
        | (.ok accessToken, w) =>
          match generateRefreshToken L secret now jti user w with
          | (.error e, w) => (.error e, w)
          | (.ok newRefreshToken, w) =>
            let w := (DeleteSession session.ID w).2
            let newSession : UserSession :=
              { ID := "", UserID := user.ID, RefreshToken := newRefreshToken,
                ExpiresAt := now + 30 * 24 * Hour, CreatedAt := 0, IPAddress := "",
                UserAgent := "" }
            match CreateSession sid now newSession w with
            | (_, .error e, w) => (.error (.db e), w)
            | (_, .ok (), w) =>
              (.ok { AccessToken := accessToken, RefreshToken := newRefreshToken,
                     User := { user with Password := "" } }, w)

/-- The Go struct `models.UpdateUserRequest`. -/
structure UpdateUserRequest where
  Username : String
  Email : String
deriving DecidableEq, Repr

/-- Method `userRepository.Update`: the body only returns nil; no statement is run. -/
def Update (_id : String) (_updates : List (String × String)) (w : World) :
    Except DbError Unit × World :=
  (.ok (), w)

/-- Method `userService.UpdateProfile`: the request is not read; the body is
`return s.GetUserByID(id)`. -/
def UpdateProfile (id : String) (_req : UpdateUserRequest) (w : World) :
    Except Err User × World :=
  GetUserByID id w

/-- Lines 51 to 77 of `userService.Register`: the part that runs once both lookups have
come back empty (hash, default role, `Create`, clear the password). -/
def RegisterHashAndInsert (L : Lib) (now : Nat) (uuid salt : String) (req : CreateUserRequest)
    (w : World) : Except Err User × World :=
  let w := w.log (.GenerateFromPassword req.Password)
  match L.GenerateFromPassword req.Password DefaultCost salt with
  | .error m => (.error (.bcrypt m), w)
  | .ok hashedPassword =>
    let role := if req.Role = "" then "user" else req.Role
    let user : User :=
      { ID := "", Email := req.Email, Username := req.Username, Password := hashedPassword,
        Role := role, IsActive := true, CreatedAt := 0, UpdatedAt := 0 }
    match Create uuid now user w with
    | (_, .error e, w) => (.error (.db e), w)
    | (user, .ok (), w) => (.ok { user with Password := "" }, w)

/-! ## internal/middleware/middleware.go -/

/-- A JSON value, as `c.JSON` writes it. -/
inductive JSON where
  | null
  | str (s : String)
  | num (n : Nat)
  | bool (b : Bool)
  | obj (fields : List (String × JSON))

/-- The keys of a JSON object (none for another value). -/
def JSON.keys : JSON → List String
  | .obj fields => fields.map Prod.fst
  | _ => []

/-- The member of a JSON object under a key. -/
def JSON.get (k : String) : JSON → Option JSON
  | .obj fields => fields.lookup k
  | _ => none

/-- The constant `http.StatusOK`. -/
def StatusOK : Nat := 200

/-- The constant `http.StatusCreated`. -/
def StatusCreated : Nat := 201

/-- The constant `http.StatusBadRequest`. -/
def StatusBadRequest : Nat := 400

/-- The constant `http.StatusUnauthorized`. -/
def StatusUnauthorized : Nat := 401

/-- The constant `http.StatusUnprocessableEntity`. -/
def StatusUnprocessableEntity : Nat := 422

/-- The method `Error()` of the errors the service returns. -/
def Err.Error : Err → String
  | .New msg => msg
  | .db (.uniqueViolation c) => "pq: duplicate key value violates unique constraint " ++ c
  | .db (.foreignKeyViolation c) => "pq: insert or update violates foreign key constraint " ++ c
  | .bcrypt msg => msg
  | .jwt msg => msg

/-- The `validator.Validate` of the handler, on the two request types: the error text, or
none when the struct passes its `validate` tags. -/
structure Validator where
  StructCreateUserRequest : CreateUserRequest → Option String
  StructLoginRequest : LoginRequest → Option String

/-- The status and body a handler writes with `c.JSON`. -/
structure Response where
  status : Nat
  body : JSON

/-- JSON encoding of `models.User` by its struct tags; `Password` is tagged `json:"-"`. -/
def marshalUser (u : User) : JSON :=
  .obj [("id", .str u.ID), ("email", .str u.Email), ("username", .str u.Username),
        ("role", .str u.Role), ("is_active", .bool u.IsActive),
        ("created_at", .num u.CreatedAt), ("updated_at", .num u.UpdatedAt)]

/-- JSON encoding of `models.LoginResponse` by its struct tags. -/
def marshalLoginResponse (r : LoginResponse) : JSON :=
  .obj [("access_token", .str r.AccessToken), ("refresh_token", .str r.RefreshToken),
        ("user", marshalUser r.User)]

/-- The body `gin.H` with an `error` object of the handlers. -/
def errorBody (code message : String) (details : Option String) : JSON :=
  .obj [("error", .obj ([("code", .str code), ("message", .str message)] ++
    match details with
    | none => []
    | some d => [("details", .str d)]))]

/-- Method `UserHandler.Register`; `bind` is the outcome of `c.ShouldBindJSON(&req)`. -/
def UserHandler_Register (V : Validator) (L : Lib) (now : Nat) (uuid salt : String)
    (bind : Except String CreateUserRequest) (w : World) : Response × World :=
  match bind with
  | .error e =>
    ({ status := StatusBadRequest,
       body := errorBody "VALIDATION_ERROR" "Invalid request body" (some e) }, w)
  | .ok req =>
    match V.StructCreateUserRequest req with
    | some e =>
      ({ status := StatusUnprocessableEntity,
         body := errorBody "VALIDATION_ERROR" "Validation failed" (some e) }, w)
    | none =>
      match Register L now uuid salt req w with
      | (.error err, w) =>
        ({ status := StatusBadRequest,
           body := errorBody "REGISTRATION_FAILED" err.Error none }, w)
      | (.ok user, w) =>
        ({ status := StatusCreated,
           body := .obj [("data", marshalUser user),
                         ("meta", .obj [("message", .str "User registered successfully")])] },
         w)

/-- Method `UserHandler.Login`; `bind` is the outcome of `c.ShouldBindJSON(&req)`. -/
def UserHandler_Login (V : Validator) (L : Lib) (secret : String) (now : Nat)
    (jti sid : String) (bind : Except String LoginRequest) (w : World) : Response × World :=
  match bind with
  | .error e =>
    ({ status := StatusBadRequest,
       body := errorBody "VALIDATION_ERROR" "Invalid request body" (some e) }, w)
  | .ok req =>
    match V.StructLoginRequest req with
    | some e =>
      ({ status := StatusUnprocessableEntity,
         body := errorBody "VALIDATION_ERROR" "Validation failed" (some e) }, w)
    | none =>
      match Login L secret now jti sid req w with
      | (.error err, w) =>
        ({ status := StatusUnauthorized, body := errorBody "LOGIN_FAILED" err.Error none }, w)
      | (.ok response, w) =>
        ({ status := StatusOK,
           body := .obj [("data", marshalLoginResponse response),
                         ("meta", .obj [("message", .str "Login successful")])] }, w)

/-! ## A small instance of the collaborators and of the store, for closed evaluations -/

/-- Text of one claim entry in the demonstration signer. -/
def demoRender : String × ClaimVal → String
  | (k, .str s) => k ++ "=" ++ s ++ ";"
  | (k, .num n) => k ++ "=" ++ toString n ++ ";"

/-- Name of a signing method, as the demonstration signer writes it. -/
def demoAlg : SigningMethod → String
  | .HMAC name => name
  | .other name => name

/-- The signing method with a given name. -/
def demoMethod (name : String) : SigningMethod :=
  if name = "HS256" ∨ name = "HS384" ∨ name = "HS512" then .HMAC name else .other name

/-- Pieces of a character list between occurrences of a separator. -/
def demoSplit (sep : Char) : List Char → List (List Char)
  | [] => [[]]
  | c :: cs =>
    if c = sep then [] :: demoSplit sep cs
    else
      match demoSplit sep cs with
      | [] => [[c]]
      | x :: xs => (c :: x) :: xs

/-- Decimal value of a list of digits. -/
def demoNat (cs : List Char) : Nat := cs.foldl (fun n c => 10 * n + (c.toNat - 48)) 0

/-- One claim entry read back from its text; `exp`, `iat` and `nbf` are numbers. -/
def demoEntry (cs : List Char) : String × ClaimVal :=
  let k := String.mk (cs.takeWhile (fun c => c != '='))
  let v := (cs.dropWhile (fun c => c != '=')).drop 1
  if k = "exp" ∨ k = "iat" ∨ k = "nbf" then (k, .num (demoNat v)) else (k, .str (String.mk v))

/-- The demonstration decoder: method name up to the colon, then the entries; the last
piece, the signature, is dropped. A text without a colon is malformed. -/
def demoParse (t : String) : Option Token :=
  let alg := t.data.takeWhile (fun c => c != ':')
  let rest := (t.data.dropWhile (fun c => c != ':')).drop 1
  if rest = [] then none
  else some { Method := demoMethod (String.mk alg),
              Claims := ((demoSplit ';' rest).dropLast).map demoEntry }

/-- A stand-in for bcrypt and the jwt package: the hash ends in the password, the token is
the method name, the claim entries and the key, and the comparison and the verification
look at the ending. -/
def demoLib : Lib where
  GenerateFromPassword pw _ salt := .ok ("$2a$" ++ salt ++ "$" ++ pw)
  CompareHashAndPassword h pw := ("$" ++ pw).data.isSuffixOf h.data
  SignedString m key claims :=
    .ok (demoAlg m ++ ":" ++ String.join (claims.map demoRender) ++ "." ++ key)
  Verify key tok := ("." ++ key).data.isSuffixOf tok.data
  ParseUnverified := demoParse

/-- An Active user whose password is `longpw123`. -/
def demoAlice : User :=
  { ID := "u1", Email := "a@x.com", Username := "alice", Password := "$2a$s$longpw123",
    Role := "user", IsActive := true, CreatedAt := 1, UpdatedAt := 1 }

/-- A deactivated user whose password is `hunter2hunter2`. -/
def demoBob : User :=
  { ID := "u2", Email := "b@x.com", Username := "bob", Password := "$2a$s$hunter2hunter2",
    Role := "admin", IsActive := false, CreatedAt := 2, UpdatedAt := 3 }

/-- A store holding the two demonstration users and no session. -/
def demoWorld : World :=
  { db := { users := [demoAlice, demoBob], user_sessions := [] }, calls := [] }

/-- The demonstration users with three session rows expiring at time 1000: one of the Active
user, one of the deactivated user, one whose owner is not in the user table. -/
def demoSessions : World :=
  { db := { users := [demoAlice, demoBob],
            user_sessions :=
              [{ ID := "s1", UserID := "u1", RefreshToken := "tokA", ExpiresAt := 1000,
                 CreatedAt := 10, IPAddress := "", UserAgent := "" },
               { ID := "s2", UserID := "u2", RefreshToken := "tokB", ExpiresAt := 1000,
                 CreatedAt := 10, IPAddress := "", UserAgent := "" },
               { ID := "s3", UserID := "u9", RefreshToken := "tokC", ExpiresAt := 1000,
                 CreatedAt := 10, IPAddress := "", UserAgent := "" }] },
    calls := [] }

/-- A stand-in for the validator: it checks the length bounds of the `validate` tags (user
name 3 to 50, registration password at least 8) and that required fields are not empty. -/
def demoValidator : Validator where
  StructCreateUserRequest req :=
    if req.Email = "" then some "Email is required"
    else if req.Username.length < 3 ∨ 50 < req.Username.length then some "Username length"
    else if req.Password.length < 8 then some "Password too short"
    else none
  StructLoginRequest req :=
    if req.Email = "" then some "Email is required"
    else if req.Password = "" then some "Password is required"
    else none

/-! ## Lookups -/

theorem find?_none_of_forall_ne {α β : Type} [DecidableEq β] (f : α → β) (l : List α) (b : β)
    (h : ∀ x ∈ l, f x ≠ b) : l.find? (fun x => f x == b) = none := by
  simp only [List.find?_eq_none, beq_iff_eq]
  intro x hx
  exact h x hx

theorem find?_isSome_of_exists {α β : Type} [DecidableEq β] (f : α → β) (l : List α) (b : β)
    (h : ∃ x ∈ l, f x = b) : ∃ y, l.find? (fun x => f x == b) = some y := by
  cases hf : l.find? (fun x => f x == b) with
  | some y => exact ⟨y, rfl⟩
  | none =>
    simp only [List.find?_eq_none, beq_iff_eq] at hf
    obtain ⟨x, hx, hb⟩ := h
    exact absurd hb (hf x hx)

/-! ## Login: the error of each failure case -/

/-- The value of `Login` when the user found by email is not Active. -/
theorem Login_deactivated (L : Lib) (secret : String) (now : Nat)
    (jti sid : String) (req : LoginRequest) (w : World) (u : User)
    (hu : (GetByEmail req.Email w).1 = .ok (some u)) (hact : u.IsActive = false) :
    (Login L secret now jti sid req w).1 = .error (.New "account is deactivated") := by
  simp only [GetByEmail, Except.ok.injEq] at hu
  simp [Login, GetByEmail, hu, hact]

/-- C1 (as amended): Login answers `errors.New("invalid credentials")` when no user matches
the email and when the matching Active user's password does not verify, and answers
`errors.New("account is deactivated")` when the matching user is not Active, whatever the
password. -/
theorem Login_failure_error_by_cause (L : Lib) (secret : String) (now : Nat)
    (jti sid : String) (req : LoginRequest) (w : World) :
    ((∀ u ∈ w.db.users, u.Email ≠ req.Email) →
      (Login L secret now jti sid req w).1 = .error (.New "invalid credentials")) ∧
    (∀ u, (GetByEmail req.Email w).1 = .ok (some u) → u.IsActive = false →
      (Login L secret now jti sid req w).1 = .error (.New "account is deactivated")) ∧
    (∀ u, (GetByEmail req.Email w).1 = .ok (some u) → u.IsActive = true →
      L.CompareHashAndPassword u.Password req.Password = false →
      (Login L secret now jti sid req w).1 = .error (.New "invalid credentials")) := by
  refine ⟨?_, ?_, ?_⟩
  · intro h
    have hnone := find?_none_of_forall_ne User.Email w.db.users req.Email h
    simp [Login, GetByEmail, hnone]
  · intro u hu hact
    simp only [GetByEmail, Except.ok.injEq] at hu
    simp [Login, GetByEmail, hu, hact]
  · intro u hu hact hpw
    simp only [GetByEmail, Except.ok.injEq] at hu
    simp [Login, GetByEmail, hu, hact, hpw]

/-- C1, the three cases on the demonstration store: an unknown email, the deactivated user
with the right password, the Active user with a wrong password. -/
theorem Login_failure_error_by_cause_witness :
    (Login demoLib "k" 100 "j1" "s1" ⟨"nobody@x.com", "longpw123"⟩ demoWorld).1
        = .error (.New "invalid credentials") ∧
    (Login demoLib "k" 100 "j1" "s1" ⟨"b@x.com", "hunter2hunter2"⟩ demoWorld).1
        = .error (.New "account is deactivated") ∧
    (Login demoLib "k" 100 "j1" "s1" ⟨"a@x.com", "wrongpw"⟩ demoWorld).1
        = .error (.New "invalid credentials") :=
  ⟨(Login_failure_error_by_cause demoLib "k" 100 "j1" "s1" ⟨"nobody@x.com", "longpw123"⟩
      demoWorld).1 (by decide),
   (Login_failure_error_by_cause demoLib "k" 100 "j1" "s1" ⟨"b@x.com", "hunter2hunter2"⟩
      demoWorld).2.1 demoBob (by decide) (by decide),
   (Login_failure_error_by_cause demoLib "k" 100 "j1" "s1" ⟨"a@x.com", "wrongpw"⟩
      demoWorld).2.2 demoAlice (by decide) (by decide) (by decide)⟩

/-- C1 as stated fails: on the demonstration store the deactivated user, logging in with the
right password, gets an error different from the one an unknown email gets. -/
theorem Login_deactivated_error_differs :
    demoLib.CompareHashAndPassword demoBob.Password "hunter2hunter2" = true ∧
    (GetByEmail "b@x.com" demoWorld).1 = .ok (some demoBob) ∧ demoBob.IsActive = false ∧
    (GetByEmail "nobody@x.com" demoWorld).1 = .ok none ∧
    (Login demoLib "k" 100 "j1" "s1" ⟨"b@x.com", "hunter2hunter2"⟩ demoWorld).1 ≠
      (Login demoLib "k" 100 "j1" "s1" ⟨"nobody@x.com", "hunter2hunter2"⟩ demoWorld).1 := by
  decide

/-! ## Register -/

theorem not_exists_of_find?_none {α β : Type} [DecidableEq β] (f : α → β) (l : List α) (b : β)
    (h : l.find? (fun x => f x == b) = none) : ¬ ∃ x ∈ l, f x = b := by
  simp only [List.find?_eq_none, beq_iff_eq] at h
  rintro ⟨x, hx, hb⟩
  exact h x hx hb

/-- The value of `Register` on the path where both checks pass, hashing succeeds and the id
drawn is not yet a primary key. -/
theorem Register_success (L : Lib) (now : Nat) (uuid salt hash : String)
    (req : CreateUserRequest) (w : World)
    (hemail : ∀ u ∈ w.db.users, u.Email ≠ req.Email)
    (hname : ∀ u ∈ w.db.users, u.Username ≠ req.Username)
    (hhash : L.GenerateFromPassword req.Password DefaultCost salt = .ok hash)
    (hid : ∀ u ∈ w.db.users, u.ID ≠ uuid) :
    Register L now uuid salt req w =
      (.ok { ID := uuid, Email := req.Email, Username := req.Username, Password := "",
             Role := if req.Role = "" then "user" else req.Role, IsActive := true,
             CreatedAt := now, UpdatedAt := now },
       { db := { users := w.db.users ++
                   [{ ID := uuid, Email := req.Email, Username := req.Username,
                      Password := hash, Role := if req.Role = "" then "user" else req.Role,
                      IsActive := true, CreatedAt := now, UpdatedAt := now }],
                 user_sessions := w.db.user_sessions },
         calls := w.calls ++ [.GetByEmail req.Email, .GetByUsername req.Username,
           .GenerateFromPassword req.Password,
           .Create { ID := uuid, Email := req.Email, Username := req.Username,
                     Password := hash, Role := if req.Role = "" then "user" else req.Role,
                     IsActive := true, CreatedAt := now, UpdatedAt := now }] }) := by
  have h1 := find?_none_of_forall_ne User.Email w.db.users req.Email hemail
  have h2 := find?_none_of_forall_ne User.Username w.db.users req.Username hname
  have h3 : ¬ ∃ x ∈ w.db.users, x.ID = uuid := fun ⟨x, hx, hb⟩ => hid x hx hb
  have h4 : ¬ ∃ x ∈ w.db.users, x.Email = req.Email := fun ⟨x, hx, hb⟩ => hemail x hx hb
  have h5 : ¬ ∃ x ∈ w.db.users, x.Username = req.Username := fun ⟨x, hx, hb⟩ => hname x hx hb
  simp [Register, GetByEmail, GetByUsername, Create, insertUser, World.log, h1, h2, hhash,
    h3, h4, h5]

/-- A `Register` that succeeded passed both checks, hashed, and drew an unused id. -/
theorem Register_ok_inv (L : Lib) (now : Nat) (uuid salt : String) (req : CreateUserRequest)
    (w w' : World) (u : User) (h : Register L now uuid salt req w = (.ok u, w')) :
    ∃ hash, L.GenerateFromPassword req.Password DefaultCost salt = .ok hash ∧
      (∀ x ∈ w.db.users, x.Email ≠ req.Email) ∧ (∀ x ∈ w.db.users, x.Username ≠ req.Username) ∧
      (∀ x ∈ w.db.users, x.ID ≠ uuid) := by
  cases hfe : w.db.users.find? (fun u => u.Email == req.Email) with
  | some x => simp [Register, GetByEmail, hfe] at h
  | none =>
    cases hfu : w.db.users.find? (fun u => u.Username == req.Username) with
    | some x => simp [Register, GetByEmail, GetByUsername, World.log, hfe, hfu] at h
    | none =>
      cases hh : L.GenerateFromPassword req.Password DefaultCost salt with
      | error m => simp [Register, GetByEmail, GetByUsername, World.log, hfe, hfu, hh] at h
      | ok hash =>
        have h4 := not_exists_of_find?_none User.Email _ _ hfe
        have h5 := not_exists_of_find?_none User.Username _ _ hfu
        refine ⟨hash, rfl, fun x hx hb => h4 ⟨x, hx, hb⟩, fun x hx hb => h5 ⟨x, hx, hb⟩, ?_⟩
        by_cases h3 : ∃ x ∈ w.db.users, x.ID = uuid
        · simp [Register, GetByEmail, GetByUsername, Create, insertUser, World.log, hfe, hfu, hh,
            h3] at h
        · exact fun x hx hb => h3 ⟨x, hx, hb⟩

/-- The value of `Register` when the email is bound: the email conflict, after the one call
`GetByEmail`, with the tables as they were. -/
theorem Register_email_bound (L : Lib) (now : Nat) (uuid salt : String)
    (req : CreateUserRequest) (w : World) (h : ∃ u ∈ w.db.users, u.Email = req.Email) :
    Register L now uuid salt req w =
      (.error (.New "user with this email already exists"),
       { db := w.db, calls := w.calls ++ [.GetByEmail req.Email] }) := by
  obtain ⟨y, hy⟩ := find?_isSome_of_exists User.Email w.db.users req.Email h
  simp [Register, GetByEmail, World.log, hy]

/-- C3: whenever the request's email is bound to a user of the store, Register fails with
`errors.New("user with this email already exists")`, whatever the username; and after a
Register that succeeded, every Register with the same email fails with that error. -/
theorem Register_email_conflict (L : Lib) (now : Nat) (uuid salt : String)
    (req : CreateUserRequest) (w : World) :
    ((∃ u ∈ w.db.users, u.Email = req.Email) →
      (Register L now uuid salt req w).1
        = .error (.New "user with this email already exists")) ∧
    (∀ u w', Register L now uuid salt req w = (.ok u, w') →
      ∀ (L2 : Lib) (now2 : Nat) (uuid2 salt2 : String) (req2 : CreateUserRequest),
        req2.Email = req.Email →
        (Register L2 now2 uuid2 salt2 req2 w').1
          = .error (.New "user with this email already exists")) := by
  refine ⟨fun h => by rw [Register_email_bound L now uuid salt req w h], ?_⟩
  intro u w' hok L2 now2 uuid2 salt2 req2 hreq
  obtain ⟨hash, hh, he, hn, hi⟩ := Register_ok_inv L now uuid salt req w w' u hok
  rw [Register_success L now uuid salt hash req w he hn hh hi] at hok
  have hw : w'.db.users = w.db.users ++
      [{ ID := uuid, Email := req.Email, Username := req.Username, Password := hash,
         Role := if req.Role = "" then "user" else req.Role, IsActive := true,
         CreatedAt := now, UpdatedAt := now }] := by
    have := (Prod.mk.inj hok).2
    rw [← this]
  rw [Register_email_bound L2 now2 uuid2 salt2 req2 w' ?_]
  rw [hw]
  exact ⟨_, List.mem_append_right _ (List.mem_singleton_self _), hreq.symm⟩

/-- C3 on the demonstration store: `a@x.com` is bound, so a Register with that email and a
new username fails; and a first Register of `c@x.com` succeeds, after which a second one
with another username fails. -/
theorem Register_email_conflict_witness :
    (Register demoLib 100 "u3" "s" ⟨"a@x.com", "carol", "longpw123", ""⟩ demoWorld).1
        = .error (.New "user with this email already exists") ∧
    (Register demoLib 101 "u4" "s" ⟨"c@x.com", "dave", "longpw123", ""⟩
        (Register demoLib 100 "u3" "s" ⟨"c@x.com", "carol", "longpw123", ""⟩ demoWorld).2).1
        = .error (.New "user with this email already exists") :=
  ⟨(Register_email_conflict demoLib 100 "u3" "s" ⟨"a@x.com", "carol", "longpw123", ""⟩
      demoWorld).1 (by decide),
   (Register_email_conflict demoLib 100 "u3" "s" ⟨"c@x.com", "carol", "longpw123", ""⟩
      demoWorld).2 _ _ rfl demoLib 101 "u4" "s" ⟨"c@x.com", "dave", "longpw123", ""⟩ rfl⟩

/-- C4: Register checks the email, then the username, then hashes, then inserts. When the
email is bound (whether or not the username is too) it returns the email conflict having
called only `GetByEmail`; when only the username is bound it returns the username conflict
having called only `GetByEmail` and `GetByUsername`; in both cases neither the hasher nor
`Create` is called and the store is unchanged. When neither is bound and hashing succeeds,
the calls made are, in order, `GetByEmail`, `GetByUsername`, the hasher, `Create`. -/
theorem Register_check_order (L : Lib) (now : Nat) (uuid salt : String)
    (req : CreateUserRequest) (w : World) :
    ((∃ u ∈ w.db.users, u.Email = req.Email) →
      Register L now uuid salt req w =
        (.error (.New "user with this email already exists"),
         { db := w.db, calls := w.calls ++ [.GetByEmail req.Email] })) ∧
    ((∀ u ∈ w.db.users, u.Email ≠ req.Email) → (∃ u ∈ w.db.users, u.Username = req.Username) →
      Register L now uuid salt req w =
        (.error (.New "user with this username already exists"),
         { db := w.db,
           calls := w.calls ++ [.GetByEmail req.Email, .GetByUsername req.Username] })) ∧
    ((∀ u ∈ w.db.users, u.Email ≠ req.Email) → (∀ u ∈ w.db.users, u.Username ≠ req.Username) →
      ∀ hash, L.GenerateFromPassword req.Password DefaultCost salt = .ok hash →
      (Register L now uuid salt req w).2.calls =
        w.calls ++ [.GetByEmail req.Email, .GetByUsername req.Username,
          .GenerateFromPassword req.Password,
          .Create { ID := uuid, Email := req.Email, Username := req.Username,
                    Password := hash, Role := if req.Role = "" then "user" else req.Role,
                    IsActive := true, CreatedAt := now, UpdatedAt := now }]) := by
  refine ⟨Register_email_bound L now uuid salt req w, ?_, ?_⟩
  · intro he hn
    have h1 := find?_none_of_forall_ne User.Email w.db.users req.Email he
    obtain ⟨y, hy⟩ := find?_isSome_of_exists User.Username w.db.users req.Username hn
    simp [Register, GetByEmail, GetByUsername, World.log, h1, hy]
  · intro he hn hash hh
    have h1 := find?_none_of_forall_ne User.Email w.db.users req.Email he
    have h2 := find?_none_of_forall_ne User.Username w.db.users req.Username hn
    simp only [Register, GetByEmail, GetByUsername, Create, World.log, h1, h2, hh]
    cases insertUser w.db _ <;> simp

/-- C4 on the demonstration store: both bound, only the username bound, neither bound. -/
theorem Register_check_order_witness :
    Register demoLib 100 "u3" "s" ⟨"a@x.com", "bob", "longpw123", ""⟩ demoWorld =
      (.error (.New "user with this email already exists"),
       { db := demoWorld.db, calls := demoWorld.calls ++ [.GetByEmail "a@x.com"] }) ∧
    Register demoLib 100 "u3" "s" ⟨"c@x.com", "bob", "longpw123", ""⟩ demoWorld =
      (.error (.New "user with this username already exists"),
       { db := demoWorld.db,
         calls := demoWorld.calls ++ [.GetByEmail "c@x.com", .GetByUsername "bob"] }) ∧
    (Register demoLib 100 "u3" "s" ⟨"c@x.com", "carol", "longpw123", ""⟩ demoWorld).2.calls =
      demoWorld.calls ++ [.GetByEmail "c@x.com", .GetByUsername "carol",
        .GenerateFromPassword "longpw123",
        .Create { ID := "u3", Email := "c@x.com", Username := "carol",
                  Password := "$2a$s$longpw123", Role := "user", IsActive := true,
                  CreatedAt := 100, UpdatedAt := 100 }] :=
  ⟨(Register_check_order demoLib 100 "u3" "s" ⟨"a@x.com", "bob", "longpw123", ""⟩
      demoWorld).1 (by decide),
   (Register_check_order demoLib 100 "u3" "s" ⟨"c@x.com", "bob", "longpw123", ""⟩
      demoWorld).2.1 (by decide) (by decide),
   (Register_check_order demoLib 100 "u3" "s" ⟨"c@x.com", "carol", "longpw123", ""⟩
      demoWorld).2.2 (by decide) (by decide) _ rfl⟩

/-- C5: when neither the email nor the username is bound, hashing succeeds and the id drawn
is unused (so the insert succeeds), Register returns the user with the request's email and
username, the request's role or `user` when that is empty, `IsActive = true` and an empty
password; the store gains exactly that row, holding the hash; and GetUserByID on the
returned id then returns the same Active user. -/
theorem Register_persists_active_user (L : Lib) (now : Nat) (uuid salt hash : String)
    (req : CreateUserRequest) (w : World)
    (hemail : ∀ u ∈ w.db.users, u.Email ≠ req.Email)
    (hname : ∀ u ∈ w.db.users, u.Username ≠ req.Username)
    (hhash : L.GenerateFromPassword req.Password DefaultCost salt = .ok hash)
    (hid : ∀ u ∈ w.db.users, u.ID ≠ uuid) :
    ∃ u w', Register L now uuid salt req w = (.ok u, w') ∧
      u = { ID := uuid, Email := req.Email, Username := req.Username, Password := "",
            Role := if req.Role = "" then "user" else req.Role, IsActive := true,
            CreatedAt := now, UpdatedAt := now } ∧
      w'.db.users = w.db.users ++ [{ u with Password := hash }] ∧
      w'.db.user_sessions = w.db.user_sessions ∧
      (GetUserByID u.ID w').1 = .ok u ∧ u.IsActive = true := by
  refine ⟨_, _, Register_success L now uuid salt hash req w hemail hname hhash hid, rfl, rfl,
    rfl, ?_, rfl⟩
  have h1 := find?_none_of_forall_ne User.ID w.db.users uuid hid
  simp [GetUserByID, GetByID, World.log, List.find?_append, h1]

/-- C5 on the demonstration store: registering `c@x.com` / `carol` with no role. -/
theorem Register_persists_active_user_witness :
    ∃ u w', Register demoLib 100 "u3" "s" ⟨"c@x.com", "carol", "longpw123", ""⟩ demoWorld
        = (.ok u, w') ∧
      u = { ID := "u3", Email := "c@x.com", Username := "carol", Password := "",
            Role := if ("" : String) = "" then "user" else "", IsActive := true,
            CreatedAt := 100, UpdatedAt := 100 } ∧
      w'.db.users = demoWorld.db.users ++ [{ u with Password := "$2a$s$longpw123" }] ∧
      w'.db.user_sessions = demoWorld.db.user_sessions ∧
      (GetUserByID u.ID w').1 = .ok u ∧ u.IsActive = true :=
  Register_persists_active_user demoLib 100 "u3" "s" "$2a$s$longpw123"
    ⟨"c@x.com", "carol", "longpw123", ""⟩ demoWorld (by decide) (by decide) rfl (by decide)

/-! ## Login: the success path -/

/-- The value of `Login` when the user found by email is Active, the password verifies,
both tokens are signed, and the session id and the refresh token are not yet in the
session table. -/
theorem Login_success (L : Lib) (secret : String) (now : Nat) (jti sid : String)
    (req : LoginRequest) (w : World) (u : User) (a t : String)
    (hu : (GetByEmail req.Email w).1 = .ok (some u)) (hact : u.IsActive = true)
    (hpw : L.CompareHashAndPassword u.Password req.Password = true)
    (ha : L.SignedString SigningMethodHS256 secret (accessClaims now u) = .ok a)
    (ht : L.SignedString SigningMethodHS256 secret (refreshClaims now jti u) = .ok t)
    (hsid : ∀ s ∈ w.db.user_sessions, s.ID ≠ sid)
    (htok : ∀ s ∈ w.db.user_sessions, s.RefreshToken ≠ t) :
    (Login L secret now jti sid req w).1
      = .ok { AccessToken := a, RefreshToken := t, User := { u with Password := "" } } ∧
    (Login L secret now jti sid req w).2.db =
      { users := w.db.users,
        user_sessions := w.db.user_sessions ++
          [{ ID := sid, UserID := u.ID, RefreshToken := t, ExpiresAt := now + 30 * 24 * Hour,
             CreatedAt := now, IPAddress := "", UserAgent := "" }] } := by
  simp only [GetByEmail, Except.ok.injEq] at hu
  have hmem : ∃ x ∈ w.db.users, x.ID = u.ID := ⟨u, List.mem_of_find?_eq_some hu, rfl⟩
  have h1 : ¬ ∃ x ∈ w.db.user_sessions, x.ID = sid := fun ⟨x, hx, hb⟩ => hsid x hx hb
  have h2 : ¬ ∃ x ∈ w.db.user_sessions, x.RefreshToken = t := fun ⟨x, hx, hb⟩ => htok x hx hb
  simp [Login, GetByEmail, generateAccessToken, generateRefreshToken, CreateSession,
    insertSession, World.log, hu, hact, hpw, ha, ht, h1, h2, hmem]

/-- A `Login` that succeeded went through every step of the success path. -/
theorem Login_ok_inv (L : Lib) (secret : String) (now : Nat) (jti sid : String)
    (req : LoginRequest) (w w' : World) (resp : LoginResponse)
    (h : Login L secret now jti sid req w = (.ok resp, w')) :
    ∃ u, (GetByEmail req.Email w).1 = .ok (some u) ∧ u.IsActive = true ∧
      L.CompareHashAndPassword u.Password req.Password = true ∧
      L.SignedString SigningMethodHS256 secret (accessClaims now u) = .ok resp.AccessToken ∧
      L.SignedString SigningMethodHS256 secret (refreshClaims now jti u) = .ok resp.RefreshToken ∧
      (∀ s ∈ w.db.user_sessions, s.ID ≠ sid) ∧
      (∀ s ∈ w.db.user_sessions, s.RefreshToken ≠ resp.RefreshToken) ∧
      resp.User = { u with Password := "" } := by
  cases hfe : w.db.users.find? (fun u => u.Email == req.Email) with
  | none => simp [Login, GetByEmail, hfe] at h
  | some u =>
    cases hact : u.IsActive with
    | false => simp [Login, GetByEmail, hfe, hact] at h
    | true =>
      cases hpw : L.CompareHashAndPassword u.Password req.Password with
      | false => simp [Login, GetByEmail, World.log, hfe, hact, hpw] at h
      | true =>
        cases ha : L.SignedString SigningMethodHS256 secret (accessClaims now u) with
        | error m =>
          simp [Login, GetByEmail, generateAccessToken, World.log, hfe, hact, hpw, ha] at h
        | ok a =>
          cases ht : L.SignedString SigningMethodHS256 secret (refreshClaims now jti u) with
          | error m =>
            simp [Login, GetByEmail, generateAccessToken, generateRefreshToken, World.log, hfe,
              hact, hpw, ha, ht] at h
          | ok t =>
            by_cases h1 : ∃ x ∈ w.db.user_sessions, x.ID = sid
            · simp [Login, GetByEmail, generateAccessToken, generateRefreshToken, CreateSession,
                insertSession, World.log, hfe, hact, hpw, ha, ht, h1] at h
            by_cases h2 : ∃ x ∈ w.db.user_sessions, x.RefreshToken = t
            · simp [Login, GetByEmail, generateAccessToken, generateRefreshToken, CreateSession,
                insertSession, World.log, hfe, hact, hpw, ha, ht, h1, h2] at h
            have hu : (GetByEmail req.Email w).1 = .ok (some u) := by simp [GetByEmail, hfe]
            have hs := Login_success L secret now jti sid req w u a t hu hact hpw ha ht
              (fun x hx hb => h1 ⟨x, hx, hb⟩) (fun x hx hb => h2 ⟨x, hx, hb⟩)
            rw [h] at hs
            have hr : resp = LoginResponse.mk a t { u with Password := "" } := by
              have := hs.1
              simpa using this
            subst hr
            exact ⟨u, hu, hact, hpw, ha, ht, fun x hx hb => h1 ⟨x, hx, hb⟩,
              fun x hx hb => h2 ⟨x, hx, hb⟩, rfl⟩

/-- C6: for an Active user and a verifying password (the two tokens being signed, and the
session id and refresh token drawn being new to the session table), Login succeeds,
returns the access token, the refresh token and the user record with `IsActive = true`
and an empty password, leaves the user table as it was, and adds exactly one session row,
bound to that user's id and to the returned refresh token, expiring at
`now + 2592000` seconds (30 days). -/
theorem Login_creates_one_session (L : Lib) (secret : String) (now : Nat) (jti sid : String)
    (req : LoginRequest) (w : World) (u : User) (a t : String)
    (hu : (GetByEmail req.Email w).1 = .ok (some u)) (hact : u.IsActive = true)
    (hpw : L.CompareHashAndPassword u.Password req.Password = true)
    (ha : L.SignedString SigningMethodHS256 secret (accessClaims now u) = .ok a)
    (ht : L.SignedString SigningMethodHS256 secret (refreshClaims now jti u) = .ok t)
    (hsid : ∀ s ∈ w.db.user_sessions, s.ID ≠ sid)
    (htok : ∀ s ∈ w.db.user_sessions, s.RefreshToken ≠ t) :
    ∃ resp w', Login L secret now jti sid req w = (.ok resp, w') ∧
      resp.AccessToken = a ∧ resp.RefreshToken = t ∧
      resp.User = { u with Password := "" } ∧ resp.User.IsActive = true ∧
      w'.db.users = w.db.users ∧
      ∃ row, w'.db.user_sessions = w.db.user_sessions ++ [row] ∧
        row.UserID = u.ID ∧ row.RefreshToken = resp.RefreshToken ∧
        row.ExpiresAt = now + 2592000 := by
  obtain ⟨h1, h2⟩ := Login_success L secret now jti sid req w u a t hu hact hpw ha ht hsid htok
  refine ⟨_, (Login L secret now jti sid req w).2, Prod.ext h1 rfl, rfl, rfl, rfl, hact, ?_, ?_⟩
  · rw [h2]
  · rw [h2]
    exact ⟨_, rfl, rfl, rfl, by simp [Hour]⟩

/-- C6 on the demonstration store: the Active user logs in with her password. -/
theorem Login_creates_one_session_witness :
    ∃ resp w', Login demoLib "k" 100 "j1" "s1" ⟨"a@x.com", "longpw123"⟩ demoWorld
        = (.ok resp, w') ∧
      resp.AccessToken = "HS256:sub=u1;email=a@x.com;role=user;exp=86500;iat=100;.k" ∧
      resp.RefreshToken = "HS256:sub=u1;type=refresh;exp=2592100;iat=100;jti=j1;.k" ∧
      resp.User = { demoAlice with Password := "" } ∧ resp.User.IsActive = true ∧
      w'.db.users = demoWorld.db.users ∧
      ∃ row, w'.db.user_sessions = demoWorld.db.user_sessions ++ [row] ∧
        row.UserID = demoAlice.ID ∧ row.RefreshToken = resp.RefreshToken ∧
        row.ExpiresAt = 100 + 2592000 :=
  Login_creates_one_session demoLib "k" 100 "j1" "s1" ⟨"a@x.com", "longpw123"⟩ demoWorld
    demoAlice _ _ (by decide) (by decide) (by decide) (by decide) (by decide) (by decide)
    (by decide)

/-! ## RefreshToken -/

/-- The value of `RefreshToken` when an unexpired session row matches, its owner is found
and Active, both tokens are signed, and the session id and the refresh token drawn do not
occur in the rows left after the old row is deleted. -/
theorem RefreshToken_success (L : Lib) (secret : String) (now : Nat) (jti sid tok : String)
    (w : World) (session : UserSession) (u : User) (a t : String)
    (hs : (GetSessionByRefreshToken now tok w).1 = .ok (some session))
    (hu : (GetByID session.UserID w).1 = .ok (some u)) (hact : u.IsActive = true)
    (ha : L.SignedString SigningMethodHS256 secret (accessClaims now u) = .ok a)
    (ht : L.SignedString SigningMethodHS256 secret (refreshClaims now jti u) = .ok t)
    (hsid : ∀ s ∈ w.db.user_sessions, s.ID ≠ session.ID → s.ID ≠ sid)
    (htok : ∀ s ∈ w.db.user_sessions, s.ID ≠ session.ID → s.RefreshToken ≠ t) :
    (RefreshToken L secret now jti sid tok w).1
      = .ok { AccessToken := a, RefreshToken := t, User := { u with Password := "" } } ∧
    (RefreshToken L secret now jti sid tok w).2.db =
      { users := w.db.users,
        user_sessions := w.db.user_sessions.filter (fun s => s.ID != session.ID) ++
          [{ ID := sid, UserID := u.ID, RefreshToken := t, ExpiresAt := now + 30 * 24 * Hour,
             CreatedAt := now, IPAddress := "", UserAgent := "" }] } := by
  simp only [GetSessionByRefreshToken, Except.ok.injEq] at hs
  simp only [GetByID, Except.ok.injEq] at hu
  have hmem : ∃ x ∈ w.db.users, x.ID = u.ID := by
    refine ⟨u, List.mem_of_find?_eq_some hu, rfl⟩
  have h1 : ¬ ∃ x ∈ w.db.user_sessions.filter (fun s => s.ID != session.ID), x.ID = sid := by
    rintro ⟨x, hx, hb⟩
    simp only [List.mem_filter, bne_iff_ne, ne_eq] at hx
    exact hsid x hx.1 hx.2 hb
  have h2 : ¬ ∃ x ∈ w.db.user_sessions.filter (fun s => s.ID != session.ID),
      x.RefreshToken = t := by
    rintro ⟨x, hx, hb⟩
    simp only [List.mem_filter, bne_iff_ne, ne_eq] at hx
    exact htok x hx.1 hx.2 hb
  simp only [RefreshToken, GetSessionByRefreshToken, GetByID, generateAccessToken,
    generateRefreshToken, DeleteSession, CreateSession, insertSession, World.log, hs, hu, hact,
    ha, ht]
  rw [if_neg h1, if_neg h2]
  simp [hmem]

/-- The value of `RefreshToken` when no session row both carries the token and is
unexpired. -/
theorem RefreshToken_no_session (L : Lib) (secret : String) (now : Nat) (jti sid tok : String)
    (w : World)
    (h : ∀ s ∈ w.db.user_sessions, s.RefreshToken = tok → s.ExpiresAt ≤ now) :
    RefreshToken L secret now jti sid tok w =
      (.error (.New "invalid refresh token"),
       { db := w.db, calls := w.calls ++ [.GetSessionByRefreshToken tok] }) := by
  have hnone : w.db.user_sessions.find?
      (fun s => s.RefreshToken == tok && decide (s.ExpiresAt > now)) = none := by
    simp only [List.find?_eq_none, Bool.and_eq_true, beq_iff_eq, decide_eq_true_eq, not_and,
      not_lt, gt_iff_lt]
    exact h
  simp [RefreshToken, GetSessionByRefreshToken, World.log, hnone]

/-- C7 (as amended): RefreshToken answers `errors.New("invalid refresh token")` when no
unexpired session row matches the token, and answers the different error
`errors.New("user not found or inactive")` when a session row matches but its owner is
missing from the user table or is not Active. -/
theorem RefreshToken_failure_error_by_cause (L : Lib) (secret : String) (now : Nat)
    (jti sid tok : String) (w : World) :
    ((∀ s ∈ w.db.user_sessions, s.RefreshToken = tok → s.ExpiresAt ≤ now) →
      (RefreshToken L secret now jti sid tok w).1 = .error (.New "invalid refresh token")) ∧
    (∀ session, (GetSessionByRefreshToken now tok w).1 = .ok (some session) →
      (∀ u ∈ w.db.users, u.ID ≠ session.UserID) →
      (RefreshToken L secret now jti sid tok w).1
        = .error (.New "user not found or inactive")) ∧
    (∀ session u, (GetSessionByRefreshToken now tok w).1 = .ok (some session) →
      (GetByID session.UserID w).1 = .ok (some u) → u.IsActive = false →
      (RefreshToken L secret now jti sid tok w).1
        = .error (.New "user not found or inactive")) := by
  refine ⟨fun h => by rw [RefreshToken_no_session L secret now jti sid tok w h], ?_, ?_⟩
  · intro session hs hmiss
    simp only [GetSessionByRefreshToken, Except.ok.injEq] at hs
    have hnone := find?_none_of_forall_ne User.ID w.db.users session.UserID hmiss
    simp [RefreshToken, GetSessionByRefreshToken, GetByID, World.log, hs, hnone]
  · intro session u hs hu hact
    simp only [GetSessionByRefreshToken, Except.ok.injEq] at hs
    simp only [GetByID, Except.ok.injEq] at hu
    simp [RefreshToken, GetSessionByRefreshToken, GetByID, World.log, hs, hu, hact]

/-- C7, the three cases on the demonstration session table at time 500: an unknown token,
a token whose owner is missing, a token whose owner is deactivated. -/
theorem RefreshToken_failure_error_by_cause_witness :
    (RefreshToken demoLib "k" 500 "j" "s9" "nothing" demoSessions).1
        = .error (.New "invalid refresh token") ∧
    (RefreshToken demoLib "k" 500 "j" "s9" "tokC" demoSessions).1
        = .error (.New "user not found or inactive") ∧
    (RefreshToken demoLib "k" 500 "j" "s9" "tokB" demoSessions).1
        = .error (.New "user not found or inactive") :=
  ⟨(RefreshToken_failure_error_by_cause demoLib "k" 500 "j" "s9" "nothing" demoSessions).1
      (by decide),
   (RefreshToken_failure_error_by_cause demoLib "k" 500 "j" "s9" "tokC" demoSessions).2.1
      ⟨"s3", "u9", "tokC", 1000, 10, "", ""⟩ (by decide) (by decide),
   (RefreshToken_failure_error_by_cause demoLib "k" 500 "j" "s9" "tokB" demoSessions).2.2
      ⟨"s2", "u2", "tokB", 1000, 10, "", ""⟩ demoBob (by decide) (by decide) (by decide)⟩

/-- C7 as stated fails: on the demonstration session table a token whose owner is
deactivated gets an error different from the one an unknown token gets. -/
theorem RefreshToken_inactive_owner_error_differs :
    (GetSessionByRefreshToken 500 "nothing" demoSessions).1 = .ok none ∧
    (GetSessionByRefreshToken 500 "tokB" demoSessions).1
      = .ok (some ⟨"s2", "u2", "tokB", 1000, 10, "", ""⟩) ∧
    (GetByID "u2" demoSessions).1 = .ok (some demoBob) ∧ demoBob.IsActive = false ∧
    (RefreshToken demoLib "k" 500 "j" "s9" "tokB" demoSessions).1 ≠
      (RefreshToken demoLib "k" 500 "j" "s9" "nothing" demoSessions).1 := by
  decide

/-- A `RefreshToken` that succeeded found an unexpired session row carrying the token. -/
theorem RefreshToken_ok_session (L : Lib) (secret : String) (now : Nat) (jti sid tok : String)
    (w w' : World) (resp : LoginResponse)
    (h : RefreshToken L secret now jti sid tok w = (.ok resp, w')) :
    ∃ s ∈ w.db.user_sessions, s.RefreshToken = tok ∧ now < s.ExpiresAt := by
  by_contra hno
  have hall : ∀ s ∈ w.db.user_sessions, s.RefreshToken = tok → s.ExpiresAt ≤ now := by
    intro s hs ht
    by_contra hlt
    exact hno ⟨s, hs, ht, Nat.lt_of_not_le hlt⟩
  rw [RefreshToken_no_session L secret now jti sid tok w hall] at h
  simp at h

/-- C8 (as amended): RefreshToken accepts a token only if an unexpired session row carries
it, and it never consults the token's signature: its result is the same whatever
`Verify` answers, and whenever an unexpired session row matches, the owner is Active, the
new pair is signed and the ids drawn are new, it succeeds, also for a token whose
signature does not verify under the current secret. -/
theorem RefreshToken_checks_session_row_only (L : Lib) (secret : String) (now : Nat)
    (jti sid tok : String) (w : World) :
    (∀ resp w', RefreshToken L secret now jti sid tok w = (.ok resp, w') →
      ∃ s ∈ w.db.user_sessions, s.RefreshToken = tok ∧ now < s.ExpiresAt) ∧
    (∀ V : String → String → Bool,
      RefreshToken { L with Verify := V } secret now jti sid tok w
        = RefreshToken L secret now jti sid tok w) ∧
    (∀ session u a t, L.Verify secret tok = false →
      (GetSessionByRefreshToken now tok w).1 = .ok (some session) →
      (GetByID session.UserID w).1 = .ok (some u) → u.IsActive = true →
      L.SignedString SigningMethodHS256 secret (accessClaims now u) = .ok a →
      L.SignedString SigningMethodHS256 secret (refreshClaims now jti u) = .ok t →
      (∀ s ∈ w.db.user_sessions, s.ID ≠ session.ID → s.ID ≠ sid) →
      (∀ s ∈ w.db.user_sessions, s.ID ≠ session.ID → s.RefreshToken ≠ t) →
      (RefreshToken L secret now jti sid tok w).1
        = .ok { AccessToken := a, RefreshToken := t, User := { u with Password := "" } }) := by
  refine ⟨fun resp w' h => RefreshToken_ok_session L secret now jti sid tok w w' resp h,
    fun V => rfl, ?_⟩
  intro session u a t _ hs hu hact ha ht hsid htok
  exact (RefreshToken_success L secret now jti sid tok w session u a t hs hu hact ha ht hsid
    htok).1

/-- C8 on the demonstration session table: `tokA` was not signed under the key `k`, its
session row is unexpired at time 500 and its owner is Active, and RefreshToken accepts it. -/
theorem RefreshToken_checks_session_row_only_witness :
    (∃ s ∈ demoSessions.db.user_sessions, s.RefreshToken = "tokA" ∧ 500 < s.ExpiresAt) ∧
    (RefreshToken demoLib "k" 500 "j2" "s9" "tokA" demoSessions).1
      = .ok { AccessToken := "HS256:sub=u1;email=a@x.com;role=user;exp=86900;iat=500;.k",
              RefreshToken := "HS256:sub=u1;type=refresh;exp=2592500;iat=500;jti=j2;.k",
              User := { demoAlice with Password := "" } } :=
  ⟨(RefreshToken_checks_session_row_only demoLib "k" 500 "j2" "s9" "tokA" demoSessions).1
      _ _ rfl,
   (RefreshToken_checks_session_row_only demoLib "k" 500 "j2" "s9" "tokA" demoSessions).2.2
      ⟨"s1", "u1", "tokA", 1000, 10, "", ""⟩ demoAlice _ _ (by decide) (by decide) (by decide)
      (by decide) (by decide) (by decide) (by decide) (by decide)⟩

/-- C8 as stated fails: a refresh token issued by Login under the key `k` does not verify
once the key is `k2`, its unexpired session row is still in the store, and RefreshToken
under the key `k2` succeeds on it. -/
theorem RefreshToken_accepts_unverified_token :
    demoLib.Verify "k2" "HS256:sub=u1;type=refresh;exp=2592100;iat=100;jti=j1;.k" = false ∧
    (Login demoLib "k" 100 "j1" "s1" ⟨"a@x.com", "longpw123"⟩ demoWorld).2.db.user_sessions
      = [⟨"s1", "u1", "HS256:sub=u1;type=refresh;exp=2592100;iat=100;jti=j1;.k", 2592100, 100, "",
          ""⟩] ∧
    (RefreshToken demoLib "k2" 200 "j2" "s2" "HS256:sub=u1;type=refresh;exp=2592100;iat=100;jti=j1;.k"
      (Login demoLib "k" 100 "j1" "s1" ⟨"a@x.com", "longpw123"⟩ demoWorld).2).1
      = .ok { AccessToken := "HS256:sub=u1;email=a@x.com;role=user;exp=86600;iat=200;.k2",
              RefreshToken := "HS256:sub=u1;type=refresh;exp=2592200;iat=200;jti=j2;.k2",
              User := { demoAlice with Password := "" } } := by
  decide

/-! ## Session lookup -/

/-- C9: GetSessionByRefreshToken never returns an error and never changes a table; it
returns a session exactly when some row carries the token with `now < ExpiresAt`, and the
session returned is such a row; when every row carrying the token has `ExpiresAt ≤ now`
(the boundary `now = ExpiresAt` included), or none carries it, or the rows carrying it have
been removed by DeleteSession, it returns not-found, and RefreshToken then fails with
`errors.New("invalid refresh token")`. -/
theorem GetSessionByRefreshToken_filters_expired (now : Nat) (tok : String) (w : World) :
    (∃ r, (GetSessionByRefreshToken now tok w).1 = .ok r) ∧
    (GetSessionByRefreshToken now tok w).2.db = w.db ∧
    (∀ s, (GetSessionByRefreshToken now tok w).1 = .ok (some s) →
      s ∈ w.db.user_sessions ∧ s.RefreshToken = tok ∧ now < s.ExpiresAt) ∧
    ((∃ s ∈ w.db.user_sessions, s.RefreshToken = tok ∧ now < s.ExpiresAt) →
      ∃ s, (GetSessionByRefreshToken now tok w).1 = .ok (some s)) ∧
    ((∀ s ∈ w.db.user_sessions, s.RefreshToken = tok → s.ExpiresAt ≤ now) →
      (GetSessionByRefreshToken now tok w).1 = .ok none ∧
      ∀ (L : Lib) (secret jti sid : String),
        (RefreshToken L secret now jti sid tok w).1 = .error (.New "invalid refresh token")) ∧
    (∀ id, (∀ s ∈ w.db.user_sessions, s.RefreshToken = tok → s.ID = id) →
      (GetSessionByRefreshToken now tok (DeleteSession id w).2).1 = .ok none ∧
      ∀ (L : Lib) (secret jti sid : String),
        (RefreshToken L secret now jti sid tok (DeleteSession id w).2).1
          = .error (.New "invalid refresh token")) := by
  refine ⟨⟨_, rfl⟩, rfl, ?_, ?_, ?_, ?_⟩
  · intro s hs
    simp only [GetSessionByRefreshToken, Except.ok.injEq] at hs
    have hp := List.find?_some hs
    simp only [Bool.and_eq_true, beq_iff_eq, decide_eq_true_eq, gt_iff_lt] at hp
    exact ⟨List.mem_of_find?_eq_some hs, hp.1, hp.2⟩
  · rintro ⟨s, hs, ht, hlt⟩
    cases hf : w.db.user_sessions.find?
        (fun s => s.RefreshToken == tok && decide (s.ExpiresAt > now)) with
    | some y => exact ⟨y, by simp [GetSessionByRefreshToken, hf]⟩
    | none =>
      simp only [List.find?_eq_none, Bool.and_eq_true, beq_iff_eq, decide_eq_true_eq, not_and,
        gt_iff_lt] at hf
      exact absurd hlt (hf s hs ht)
  · intro h
    have hnone : w.db.user_sessions.find?
        (fun s => s.RefreshToken == tok && decide (s.ExpiresAt > now)) = none := by
      simp only [List.find?_eq_none, Bool.and_eq_true, beq_iff_eq, decide_eq_true_eq, not_and,
        not_lt, gt_iff_lt]
      exact h
    refine ⟨by simp [GetSessionByRefreshToken, hnone], fun L secret jti sid => ?_⟩
    rw [RefreshToken_no_session L secret now jti sid tok w h]
  · intro id h
    have hgone : ∀ s ∈ (DeleteSession id w).2.db.user_sessions,
        s.RefreshToken = tok → s.ExpiresAt ≤ now := by
      intro s hs ht
      simp only [DeleteSession, World.log, List.mem_filter, bne_iff_ne, ne_eq] at hs
      exact absurd (h s hs.1 ht) hs.2
    have hnone : (DeleteSession id w).2.db.user_sessions.find?
        (fun s => s.RefreshToken == tok && decide (s.ExpiresAt > now)) = none := by
      simp only [List.find?_eq_none, Bool.and_eq_true, beq_iff_eq, decide_eq_true_eq, not_and,
        not_lt, gt_iff_lt]
      exact hgone
    refine ⟨by simp [GetSessionByRefreshToken, hnone], fun L secret jti sid => ?_⟩
    rw [RefreshToken_no_session L secret now jti sid tok _ hgone]

/-- C9 on the demonstration session table: `tokA` is found at time 999, is not found at
its expiry time 1000, and is not found at time 500 once its row `s1` is deleted. -/
theorem GetSessionByRefreshToken_filters_expired_witness :
    (∃ s, (GetSessionByRefreshToken 999 "tokA" demoSessions).1 = .ok (some s)) ∧
    ((GetSessionByRefreshToken 1000 "tokA" demoSessions).1 = .ok none ∧
      ∀ (L : Lib) (secret jti sid : String),
        (RefreshToken L secret 1000 jti sid "tokA" demoSessions).1
          = .error (.New "invalid refresh token")) ∧
    ((GetSessionByRefreshToken 500 "tokA" (DeleteSession "s1" demoSessions).2).1 = .ok none ∧
      ∀ (L : Lib) (secret jti sid : String),
        (RefreshToken L secret 500 jti sid "tokA" (DeleteSession "s1" demoSessions).2).1
          = .error (.New "invalid refresh token")) :=
  ⟨(GetSessionByRefreshToken_filters_expired 999 "tokA" demoSessions).2.2.2.1 (by decide),
   (GetSessionByRefreshToken_filters_expired 1000 "tokA" demoSessions).2.2.2.2.1 (by decide),
   (GetSessionByRefreshToken_filters_expired 500 "tokA" demoSessions).2.2.2.2.2 "s1"
      (by decide)⟩

/-! ## DeleteAccount -/

/-- The lookup by email after `Delete`: the row found before, deactivated if it has the id. -/
theorem GetByEmail_after_Delete (now : Nat) (id email : String) (w : World) :
    (GetByEmail email (Delete now id w).2).1 =
      .ok ((w.db.users.find? (fun u => u.Email == email)).map (fun u =>
        if u.ID = id then { u with IsActive := false, UpdatedAt := now } else u)) := by
  simp only [GetByEmail, Delete, World.log, List.find?_map]
  congr 2
  refine congrArg (fun p => List.find? p w.db.users) ?_
  funext u
  by_cases h : u.ID = id <;> simp [Function.comp, h]

/-- C10 (as amended): DeleteAccount returns no error, removes no row and touches no session
row; every user row with the given id keeps all its fields except `IsActive`, now false,
and `UpdatedAt`, now the time of the call, and every other user row is unchanged; a
subsequent Login with that user's email fails with `errors.New("account is deactivated")`,
whatever the password. -/
theorem DeleteAccount_soft_delete (now : Nat) (id : String) (w : World) :
    (DeleteAccount now id w).1 = .ok () ∧
    (DeleteAccount now id w).2.db.user_sessions = w.db.user_sessions ∧
    (DeleteAccount now id w).2.db.users.length = w.db.users.length ∧
    (∀ (i : Nat) (u : User), w.db.users[i]? = some u →
      (u.ID = id → (DeleteAccount now id w).2.db.users[i]?
        = some { u with IsActive := false, UpdatedAt := now }) ∧
      (u.ID ≠ id → (DeleteAccount now id w).2.db.users[i]? = some u)) ∧
    (∀ (L : Lib) (secret : String) (now2 : Nat) (jti sid : String) (req : LoginRequest) (u : User),
      (GetByEmail req.Email w).1 = .ok (some u) → u.ID = id →
      (Login L secret now2 jti sid req (DeleteAccount now id w).2).1
        = .error (.New "account is deactivated")) := by
  refine ⟨rfl, rfl, by simp [DeleteAccount, Delete, World.log], ?_, ?_⟩
  · intro i u hi
    constructor
    · intro h
      simp [DeleteAccount, Delete, World.log, List.getElem?_map, hi, h]
    · intro h
      simp [DeleteAccount, Delete, World.log, List.getElem?_map, hi, h]
  · intro L secret now2 jti sid req u hu hid
    have hfind : (w.db.users.find? (fun u => u.Email == req.Email)) = some u := by
      simpa [GetByEmail] using hu
    have hget := GetByEmail_after_Delete now id req.Email w
    rw [hfind] at hget
    simp only [Option.map_some', hid, if_true] at hget
    have hdel : (DeleteAccount now id w).2 = (Delete now id w).2 := rfl
    exact (Login_deactivated L secret now2 jti sid req _ _
      (by rw [hdel]; exact hget) rfl)

/-- C10 on the demonstration store: the Active user is deleted at time 50 and then logs in
with her password. -/
theorem DeleteAccount_soft_delete_witness :
    (DeleteAccount 50 "u1" demoWorld).2.db.users[0]?
      = some { demoAlice with IsActive := false, UpdatedAt := 50 } ∧
    (DeleteAccount 50 "u1" demoWorld).2.db.users[1]? = some demoBob ∧
    (Login demoLib "k" 100 "j1" "s1" ⟨"a@x.com", "longpw123"⟩
      (DeleteAccount 50 "u1" demoWorld).2).1 = .error (.New "account is deactivated") :=
  ⟨((DeleteAccount_soft_delete 50 "u1" demoWorld).2.2.2.1 0 demoAlice (by decide)).1
      (by decide),
   ((DeleteAccount_soft_delete 50 "u1" demoWorld).2.2.2.1 1 demoBob (by decide)).2
      (by decide),
   (DeleteAccount_soft_delete 50 "u1" demoWorld).2.2.2.2 demoLib "k" 100 "j1" "s1"
      ⟨"a@x.com", "longpw123"⟩ demoAlice (by decide) (by decide)⟩

/-- C10 as stated fails: after DeleteAccount of the Active demonstration user, her Login
with the right password does not fail with `errors.New("invalid credentials")`. -/
theorem Login_after_DeleteAccount_not_invalid_credentials :
    demoLib.CompareHashAndPassword demoAlice.Password "longpw123" = true ∧
    (GetByEmail "a@x.com" demoWorld).1 = .ok (some demoAlice) ∧ demoAlice.ID = "u1" ∧
    (Login demoLib "k" 100 "j1" "s1" ⟨"a@x.com", "longpw123"⟩
      (DeleteAccount 50 "u1" demoWorld).2).1 ≠ .error (.New "invalid credentials") := by
  decide

/-! ## GetUserByID and UpdateProfile -/

/-- The value of `GetUserByID` when a row has the id: that row with the password cleared. -/
theorem GetUserByID_found (id : String) (w : World) (u : User)
    (h : (GetByID id w).1 = .ok (some u)) :
    GetUserByID id w =
      (.ok { u with Password := "" }, { db := w.db, calls := w.calls ++ [.GetByID id] }) := by
  simp only [GetByID, Except.ok.injEq] at h
  simp [GetUserByID, GetByID, World.log, h]

/-- A `GetUserByID` that succeeded returns a stored row with the password cleared and
leaves the tables as they were. -/
theorem GetUserByID_ok_inv (id : String) (w w' : World) (u : User)
    (h : GetUserByID id w = (.ok u, w')) :
    ∃ row ∈ w.db.users, row.ID = id ∧ u = { row with Password := "" } ∧ w'.db = w.db := by
  cases hf : w.db.users.find? (fun u => u.ID == id) with
  | none => simp [GetUserByID, GetByID, hf] at h
  | some row =>
    have hg : (GetByID id w).1 = .ok (some row) := by simp [GetByID, hf]
    rw [GetUserByID_found id w row hg] at h
    have h1 := (Prod.mk.inj h).1
    have h2 := (Prod.mk.inj h).2
    have hid : row.ID = id := by simpa using List.find?_some hf
    refine ⟨row, List.mem_of_find?_eq_some hf, hid, ?_, ?_⟩
    · simpa using h1.symm
    · rw [← h2]

/-- C11 (as amended): GetUserByID fails with `errors.New("user not found")` exactly when no
row of the user table has the id; when a row has the id it succeeds and returns that row
with the password cleared, whether the row is Active or deactivated. It never changes a
table. -/
theorem GetUserByID_fails_iff_no_row (id : String) (w : World) :
    ((GetUserByID id w).1 = .error (.New "user not found") ↔ ∀ u ∈ w.db.users, u.ID ≠ id) ∧
    (∀ u, (GetByID id w).1 = .ok (some u) →
      (GetUserByID id w).1 = .ok { u with Password := "" }) ∧
    (GetUserByID id w).2.db = w.db := by
  refine ⟨?_, fun u h => by rw [GetUserByID_found id w u h], ?_⟩
  · constructor
    · intro h
      cases hf : w.db.users.find? (fun u => u.ID == id) with
      | none =>
        intro u hu hid
        exact not_exists_of_find?_none User.ID _ _ hf ⟨u, hu, hid⟩
      | some row => simp [GetUserByID, GetByID, hf] at h
    · intro h
      have hnone := find?_none_of_forall_ne User.ID w.db.users id h
      simp [GetUserByID, GetByID, hnone]
  · cases hf : w.db.users.find? (fun u => u.ID == id) <;>
      simp [GetUserByID, GetByID, World.log, hf]

/-- C11 on the demonstration store: the deactivated user `u2` and the Active user `u1` are
both returned. -/
theorem GetUserByID_fails_iff_no_row_witness :
    (GetUserByID "u2" demoWorld).1 = .ok { demoBob with Password := "" } ∧
    (GetUserByID "u1" demoWorld).1 = .ok { demoAlice with Password := "" } :=
  ⟨(GetUserByID_fails_iff_no_row "u2" demoWorld).2.1 demoBob (by decide),
   (GetUserByID_fails_iff_no_row "u1" demoWorld).2.1 demoAlice (by decide)⟩

/-- C11 as stated fails: the row `u2` of the demonstration store is deactivated, and
GetUserByID on its id succeeds instead of failing with `errors.New("user not found")`. -/
theorem GetUserByID_returns_deactivated_user :
    (GetByID "u2" demoWorld).1 = .ok (some demoBob) ∧ demoBob.IsActive = false ∧
    (GetUserByID "u2" demoWorld).1 = .ok { demoBob with Password := "" } ∧
    (GetUserByID "u2" demoWorld).1 ≠ .error (.New "user not found") := by
  decide

/-! ## The user record handed back to the caller -/

/-- A `RefreshToken` that succeeded returns a stored row with the password cleared and
leaves the user table as it was. -/
theorem RefreshToken_ok_user (L : Lib) (secret : String) (now : Nat) (jti sid tok : String)
    (w w' : World) (resp : LoginResponse)
    (h : RefreshToken L secret now jti sid tok w = (.ok resp, w')) :
    ∃ row ∈ w.db.users, resp.User = { row with Password := "" } ∧
      w'.db.users = w.db.users := by
  cases hs : w.db.user_sessions.find?
      (fun s => s.RefreshToken == tok && decide (s.ExpiresAt > now)) with
  | none => simp [RefreshToken, GetSessionByRefreshToken, hs] at h
  | some session =>
    cases hu : w.db.users.find? (fun u => u.ID == session.UserID) with
    | none => simp [RefreshToken, GetSessionByRefreshToken, GetByID, World.log, hs, hu] at h
    | some u =>
      cases hact : u.IsActive with
      | false =>
        simp [RefreshToken, GetSessionByRefreshToken, GetByID, World.log, hs, hu, hact] at h
      | true =>
        cases ha : L.SignedString SigningMethodHS256 secret (accessClaims now u) with
        | error m =>
          simp [RefreshToken, GetSessionByRefreshToken, GetByID, generateAccessToken,
            World.log, hs, hu, hact, ha] at h
        | ok a =>
          cases ht : L.SignedString SigningMethodHS256 secret (refreshClaims now jti u) with
          | error m =>
            simp [RefreshToken, GetSessionByRefreshToken, GetByID, generateAccessToken,
              generateRefreshToken, World.log, hs, hu, hact, ha, ht] at h
          | ok t =>
            simp only [RefreshToken, GetSessionByRefreshToken, GetByID, generateAccessToken,
              generateRefreshToken, DeleteSession, CreateSession, World.log, hs, hu, hact, ha,
              ht] at h
            cases hi : insertSession
                { users := w.db.users,
                  user_sessions := w.db.user_sessions.filter (fun s => s.ID != session.ID) }
                { ID := sid, UserID := u.ID, RefreshToken := t,
                  ExpiresAt := now + 30 * 24 * Hour, CreatedAt := now, IPAddress := "",
                  UserAgent := "" } with
            | error e => simp [hi] at h
            | ok db =>
              simp [hi] at h
              have hdb : db.users = w.db.users := by
                simp only [insertSession] at hi
                split_ifs at hi
                simp only [Except.ok.injEq] at hi
                rw [← hi]
              refine ⟨u, List.mem_of_find?_eq_some hu, ?_, ?_⟩
              · rw [← h.1]
                simp [hact]
              · rw [← h.2, hdb]

/-- C12: whenever Register, Login, RefreshToken, GetUserByID or UpdateProfile succeeds, the
user it returns has an empty `Password`, and the stored hashes are left as they are: the
four last operations do not change the user table and return a stored row with only the
password cleared (for Login, a row whose hash verified the request's password); Register
appends the row holding the hash bcrypt returned, which is non-empty and verifies the
request's password whenever bcrypt's result for this call is so. -/
theorem returned_user_is_sanitized (L : Lib) (secret : String) (now : Nat)
    (uuid salt jti sid tok id : String) (creq : CreateUserRequest) (lreq : LoginRequest)
    (ureq : UpdateUserRequest) (w : World) :
    (∀ u w', Register L now uuid salt creq w = (.ok u, w') →
      u.Password = "" ∧
      ∃ hash, L.GenerateFromPassword creq.Password DefaultCost salt = .ok hash ∧
        w'.db.users = w.db.users ++ [{ u with Password := hash }] ∧
        ((hash ≠ "" ∧ L.CompareHashAndPassword hash creq.Password = true) →
          ∃ row ∈ w'.db.users, row.ID = u.ID ∧ row.Password ≠ "" ∧
            L.CompareHashAndPassword row.Password creq.Password = true)) ∧
    (∀ resp w', Login L secret now jti sid lreq w = (.ok resp, w') →
      resp.User.Password = "" ∧ w'.db.users = w.db.users ∧
      ∃ row ∈ w'.db.users, resp.User = { row with Password := "" } ∧
        L.CompareHashAndPassword row.Password lreq.Password = true) ∧
    (∀ resp w', RefreshToken L secret now jti sid tok w = (.ok resp, w') →
      resp.User.Password = "" ∧ w'.db.users = w.db.users ∧
      ∃ row ∈ w'.db.users, resp.User = { row with Password := "" }) ∧
    (∀ u w', GetUserByID id w = (.ok u, w') →
      u.Password = "" ∧ w'.db.users = w.db.users ∧
      ∃ row ∈ w'.db.users, u = { row with Password := "" }) ∧
    (∀ u w', UpdateProfile id ureq w = (.ok u, w') →
      u.Password = "" ∧ w'.db.users = w.db.users ∧
      ∃ row ∈ w'.db.users, u = { row with Password := "" }) := by
  refine ⟨?_, ?_, ?_, ?_, ?_⟩
  · intro u w' h
    obtain ⟨hash, hh, he, hn, hi⟩ := Register_ok_inv L now uuid salt creq w w' u h
    rw [Register_success L now uuid salt hash creq w he hn hh hi] at h
    obtain ⟨h1, h2⟩ := Prod.mk.inj h
    simp only [Except.ok.injEq] at h1
    subst h1
    subst h2
    refine ⟨rfl, hash, hh, rfl, ?_⟩
    intro hlaw
    exact ⟨_, List.mem_append_right _ (List.mem_singleton_self _), rfl, hlaw.1, hlaw.2⟩
  · intro resp w' h
    obtain ⟨u, hu, hact, hpw, ha, ht, hsid, htok, hru⟩ :=
      Login_ok_inv L secret now jti sid lreq w w' resp h
    have hdb := (Login_success L secret now jti sid lreq w u _ _ hu hact hpw ha ht hsid
      htok).2
    rw [h] at hdb
    simp only at hdb
    have humem : u ∈ w.db.users := by
      simp only [GetByEmail, Except.ok.injEq] at hu
      exact List.mem_of_find?_eq_some hu
    have hus : w'.db.users = w.db.users := by rw [hdb]
    refine ⟨by rw [hru], hus, u, by rw [hus]; exact humem, hru, hpw⟩
  · intro resp w' h
    obtain ⟨row, hmem, hr, hus⟩ := RefreshToken_ok_user L secret now jti sid tok w w' resp h
    exact ⟨by rw [hr], hus, row, by rw [hus]; exact hmem, hr⟩
  · intro u w' h
    obtain ⟨row, hmem, _, hr, hdb⟩ := GetUserByID_ok_inv id w w' u h
    exact ⟨by rw [hr], by rw [hdb], row, by rw [hdb]; exact hmem, hr⟩
  · intro u w' h
    obtain ⟨row, hmem, _, hr, hdb⟩ := GetUserByID_ok_inv id w w' u h
    exact ⟨by rw [hr], by rw [hdb], row, by rw [hdb]; exact hmem, hr⟩

/-- C12 on the demonstration stores: each of the five operations succeeds and returns a
user with an empty password. -/
theorem returned_user_is_sanitized_witness :
    (Register demoLib 100 "u3" "s" ⟨"c@x.com", "carol", "longpw123", ""⟩ demoSessions).1
      = .ok ⟨"u3", "c@x.com", "carol", "", "user", true, 100, 100⟩ ∧
    (∃ row ∈ (Register demoLib 100 "u3" "s" ⟨"c@x.com", "carol", "longpw123", ""⟩
        demoSessions).2.db.users, row.ID = "u3" ∧ row.Password ≠ "" ∧
      demoLib.CompareHashAndPassword row.Password "longpw123" = true) ∧
    (Login demoLib "k" 100 "j1" "s9" ⟨"a@x.com", "longpw123"⟩ demoSessions).1
      = .ok ⟨"HS256:sub=u1;email=a@x.com;role=user;exp=86500;iat=100;.k",
             "HS256:sub=u1;type=refresh;exp=2592100;iat=100;jti=j1;.k",
             { demoAlice with Password := "" }⟩ ∧
    (∃ resp, (RefreshToken demoLib "k" 100 "j1" "s9" "tokA" demoSessions).1 = .ok resp ∧
      resp.User.Password = "") ∧
    (GetUserByID "u1" demoSessions).1 = .ok { demoAlice with Password := "" } ∧
    (UpdateProfile "u1" ⟨"al", "al@x.com"⟩ demoSessions).1
      = .ok { demoAlice with Password := "" } := by
  have hthm := returned_user_is_sanitized demoLib "k" 100 "u3" "s" "j1" "s9" "tokA" "u1"
    ⟨"c@x.com", "carol", "longpw123", ""⟩ ⟨"a@x.com", "longpw123"⟩ ⟨"al", "al@x.com"⟩
    demoSessions
  refine ⟨by decide, ?_, by decide, ?_, by decide, by decide⟩
  · obtain ⟨_, hash, hh, _, hrow⟩ := hthm.1 _ _ rfl
    have hhash : hash = "$2a$s$longpw123" := by
      have : demoLib.GenerateFromPassword "longpw123" DefaultCost "s"
          = .ok "$2a$s$longpw123" := rfl
      rw [this] at hh
      exact (Except.ok.inj hh).symm
    subst hhash
    exact hrow (by decide)
  · exact ⟨_, rfl, (hthm.2.2.1 _ _ rfl).1⟩

/-! ## UpdateProfile -/

/-- C13, the code at the failing input: on the demonstration store the email `b@x.com` and
the username `bob` belong to user `u2`, yet UpdateProfile of user `u1` with that email and
that username returns no conflict: it returns user `u1` unchanged and leaves the store as
it was. -/
theorem UpdateProfile_taken_email_no_conflict :
    (∃ x ∈ demoWorld.db.users, x.ID ≠ "u1" ∧ x.Email = "b@x.com" ∧ x.Username = "bob") ∧
    demoAlice.Email ≠ "b@x.com" ∧ demoAlice.Username ≠ "bob" ∧
    (UpdateProfile "u1" ⟨"bob", "b@x.com"⟩ demoWorld).1
      = .ok { demoAlice with Password := "" } ∧
    (UpdateProfile "u1" ⟨"bob", "b@x.com"⟩ demoWorld).2.db = demoWorld.db := by
  decide

/-! ## The claim sets of the two tokens -/

/-- C14: with the clock read at the instant `now`, generateAccessToken signs, with HS256
under the secret, exactly the claims `sub` = user id, `email`, `role`, `exp` = now + 86400
and `iat` = now; generateRefreshToken signs, with HS256 under the secret, exactly the claims
`sub` = user id, `type` = "refresh", `exp` = now + 2592000, `iat` = now and `jti` = the id
drawn, and no `email` or `role` claim; each returns the signer's token, or its error. -/
theorem token_claim_sets (L : Lib) (secret : String) (now : Nat) (jti : String) (user : User)
    (w : World) :
    SigningMethodHS256 = .HMAC "HS256" ∧
    (generateAccessToken L secret now user w).2.calls
      = w.calls ++ [.SignedString (accessClaims now user)] ∧
    (∀ t, L.SignedString SigningMethodHS256 secret (accessClaims now user) = .ok t →
      (generateAccessToken L secret now user w).1 = .ok t) ∧
    (∀ m, L.SignedString SigningMethodHS256 secret (accessClaims now user) = .error m →
      (generateAccessToken L secret now user w).1 = .error (.jwt m)) ∧
    accessClaims now user =
      [("sub", .str user.ID), ("email", .str user.Email), ("role", .str user.Role),
       ("exp", .num (now + 86400)), ("iat", .num now)] ∧
    (generateRefreshToken L secret now jti user w).2.calls
      = w.calls ++ [.SignedString (refreshClaims now jti user)] ∧
    (∀ t, L.SignedString SigningMethodHS256 secret (refreshClaims now jti user) = .ok t →
      (generateRefreshToken L secret now jti user w).1 = .ok t) ∧
    (∀ m, L.SignedString SigningMethodHS256 secret (refreshClaims now jti user) = .error m →
      (generateRefreshToken L secret now jti user w).1 = .error (.jwt m)) ∧
    refreshClaims now jti user =
      [("sub", .str user.ID), ("type", .str "refresh"), ("exp", .num (now + 2592000)),
       ("iat", .num now), ("jti", .str jti)] ∧
    (refreshClaims now jti user).lookup "email" = none ∧
    (refreshClaims now jti user).lookup "role" = none := by
  refine ⟨rfl, ?_, ?_, ?_, ?_, ?_, ?_, ?_, ?_, ?_, ?_⟩
  · simp only [generateAccessToken, World.log]
    cases L.SignedString SigningMethodHS256 secret (accessClaims now user) <;> rfl
  · intro t ht
    simp [generateAccessToken, ht]
  · intro m hm
    simp [generateAccessToken, hm]
  · simp [accessClaims, Hour]
  · simp only [generateRefreshToken, World.log]
    cases L.SignedString SigningMethodHS256 secret (refreshClaims now jti user) <;> rfl
  · intro t ht
    simp [generateRefreshToken, ht]
  · intro m hm
    simp [generateRefreshToken, hm]
  · simp [refreshClaims, Hour]
  · simp [refreshClaims, List.lookup]
  · simp [refreshClaims, List.lookup]

/-! ## JWTAuthMiddleware -/

/-- When both lookups come back empty, `Register` is its second part run after the two
lookups have been recorded. -/
theorem Register_eq_hash_and_insert (L : Lib) (now : Nat) (uuid salt : String)
    (req : CreateUserRequest) (w : World)
    (hemail : ∀ u ∈ w.db.users, u.Email ≠ req.Email)
    (hname : ∀ u ∈ w.db.users, u.Username ≠ req.Username) :
    Register L now uuid salt req w =
      RegisterHashAndInsert L now uuid salt req
        { db := w.db,
          calls := w.calls ++ [.GetByEmail req.Email, .GetByUsername req.Username] } := by
  have h1 := find?_none_of_forall_ne User.Email w.db.users req.Email hemail
  have h2 := find?_none_of_forall_ne User.Username w.db.users req.Username hname
  simp [Register, RegisterHashAndInsert, GetByEmail, GetByUsername, World.log, h1, h2]

/-- C16 (as amended): when both uniqueness checks pass and hashing succeeds but the store
refuses the insert with an error `e`, Register returns that store error unchanged, which is
never the `errors.New` conflict of the email check. In particular, when the part of
Register after the checks runs on a store in which a concurrent registration has bound the
email meanwhile, it returns the driver's unique-violation error on the email column. -/
theorem Register_returns_store_error (L : Lib) (now : Nat) (uuid salt hash : String)
    (req : CreateUserRequest) (w : World)
    (hhash : L.GenerateFromPassword req.Password DefaultCost salt = .ok hash) :
    ((∀ u ∈ w.db.users, u.Email ≠ req.Email) → (∀ u ∈ w.db.users, u.Username ≠ req.Username) →
      ∀ e, insertUser w.db
          { ID := uuid, Email := req.Email, Username := req.Username, Password := hash,
            Role := if req.Role = "" then "user" else req.Role, IsActive := true,
            CreatedAt := now, UpdatedAt := now } = .error e →
        (Register L now uuid salt req w).1 = .error (.db e) ∧
        (Register L now uuid salt req w).1
          ≠ .error (.New "user with this email already exists") ∧
        (Register L now uuid salt req w).2.db = w.db) ∧
    ((∃ u ∈ w.db.users, u.Email = req.Email) → (∀ u ∈ w.db.users, u.ID ≠ uuid) →
      (RegisterHashAndInsert L now uuid salt req w).1
        = .error (.db (.uniqueViolation "users_email_key")) ∧
      (RegisterHashAndInsert L now uuid salt req w).2.db = w.db) := by
  constructor
  · intro he hn e hins
    rw [Register_eq_hash_and_insert L now uuid salt req w he hn]
    simp [RegisterHashAndInsert, Create, World.log, hhash, hins]
  · intro hbound hid
    have h3 : ¬ ∃ x ∈ w.db.users, x.ID = uuid := fun ⟨x, hx, hb⟩ => hid x hx hb
    simp [RegisterHashAndInsert, Create, insertUser, World.log, hhash, h3, hbound]

/-- C16 on the demonstration store: a Register whose id collides with a stored one, and the
second part of a Register of `c@x.com` run after another Register has taken that email. -/
theorem Register_returns_store_error_witness :
    ((Register demoLib 100 "u1" "s" ⟨"c@x.com", "carol", "longpw123", ""⟩ demoWorld).1
        = .error (.db (.uniqueViolation "users_pkey")) ∧
      (Register demoLib 100 "u1" "s" ⟨"c@x.com", "carol", "longpw123", ""⟩ demoWorld).1
        ≠ .error (.New "user with this email already exists") ∧
      (Register demoLib 100 "u1" "s" ⟨"c@x.com", "carol", "longpw123", ""⟩ demoWorld).2.db
        = demoWorld.db) ∧
    ((RegisterHashAndInsert demoLib 100 "u3" "s" ⟨"c@x.com", "carol", "longpw123", ""⟩
        (Register demoLib 100 "u4" "s" ⟨"c@x.com", "carl", "otherpw123", ""⟩ demoWorld).2).1
        = .error (.db (.uniqueViolation "users_email_key")) ∧
      (RegisterHashAndInsert demoLib 100 "u3" "s" ⟨"c@x.com", "carol", "longpw123", ""⟩
        (Register demoLib 100 "u4" "s" ⟨"c@x.com", "carl", "otherpw123", ""⟩ demoWorld).2).2.db
        = (Register demoLib 100 "u4" "s" ⟨"c@x.com", "carl", "otherpw123", ""⟩
            demoWorld).2.db) :=
  ⟨(Register_returns_store_error demoLib 100 "u1" "s" "$2a$s$longpw123"
      ⟨"c@x.com", "carol", "longpw123", ""⟩ demoWorld rfl).1 (by decide) (by decide)
      (.uniqueViolation "users_pkey") (by decide),
   (Register_returns_store_error demoLib 100 "u3" "s" "$2a$s$longpw123"
      ⟨"c@x.com", "carol", "longpw123", ""⟩
      (Register demoLib 100 "u4" "s" ⟨"c@x.com", "carl", "otherpw123", ""⟩ demoWorld).2
      rfl).2 (by decide) (by decide)⟩

/-- C16 as stated fails: on the demonstration store both checks pass for `c@x.com` and
`carol`; a concurrent Register then takes `c@x.com`, the insert reports a uniqueness
violation, and the error returned is not the one the email check returns. The same
happens within one Register when the id drawn collides. -/
theorem Register_store_conflict_error_differs :
    (GetByEmail "c@x.com" demoWorld).1 = .ok none ∧
    (GetByUsername "carol" demoWorld).1 = .ok none ∧
    (Register demoLib 100 "u4" "s" ⟨"c@x.com", "carl", "otherpw123", ""⟩ demoWorld).1
      = .ok ⟨"u4", "c@x.com", "carl", "", "user", true, 100, 100⟩ ∧
    (RegisterHashAndInsert demoLib 100 "u3" "s" ⟨"c@x.com", "carol", "longpw123", ""⟩
        (Register demoLib 100 "u4" "s" ⟨"c@x.com", "carl", "otherpw123", ""⟩ demoWorld).2).1
      = .error (.db (.uniqueViolation "users_email_key")) ∧
    (RegisterHashAndInsert demoLib 100 "u3" "s" ⟨"c@x.com", "carol", "longpw123", ""⟩
        (Register demoLib 100 "u4" "s" ⟨"c@x.com", "carl", "otherpw123", ""⟩ demoWorld).2).1
      ≠ (Register demoLib 100 "u5" "s" ⟨"a@x.com", "carol", "longpw123", ""⟩ demoWorld).1 ∧
    (Register demoLib 100 "u1" "s" ⟨"c@x.com", "carol", "longpw123", ""⟩ demoWorld).1
      ≠ (Register demoLib 100 "u5" "s" ⟨"a@x.com", "carol", "longpw123", ""⟩ demoWorld).1 := by
  decide

/-! ## Handlers: status and body -/

/-- C17: for a request that binds and passes validation, the Register handler answers 201
with a body whose keys are `data` and `meta` when the service's Register succeeds, and 400
with a body whose only key is `error` (code REGISTRATION_FAILED, the error's text as
message, no `data`) when the service's Register returns any error; the store it leaves is
the one Register leaves. -/
theorem UserHandler_Register_status (V : Validator) (L : Lib) (now : Nat) (uuid salt : String)
    (req : CreateUserRequest) (w : World) (hv : V.StructCreateUserRequest req = none) :
    (∀ user w', Register L now uuid salt req w = (.ok user, w') →
      (UserHandler_Register V L now uuid salt (.ok req) w).1.status = 201 ∧
      (UserHandler_Register V L now uuid salt (.ok req) w).1.body.keys = ["data", "meta"] ∧
      (UserHandler_Register V L now uuid salt (.ok req) w).1.body.get "data"
        = some (marshalUser user) ∧
      (UserHandler_Register V L now uuid salt (.ok req) w).2 = w') ∧
    (∀ err w', Register L now uuid salt req w = (.error err, w') →
      (UserHandler_Register V L now uuid salt (.ok req) w).1.status = 400 ∧
      (UserHandler_Register V L now uuid salt (.ok req) w).1.body.keys = ["error"] ∧
      "data" ∉ (UserHandler_Register V L now uuid salt (.ok req) w).1.body.keys ∧
      (UserHandler_Register V L now uuid salt (.ok req) w).1.body.get "error"
        = some (.obj [("code", .str "REGISTRATION_FAILED"), ("message", .str err.Error)]) ∧
      (UserHandler_Register V L now uuid salt (.ok req) w).2 = w') := by
  constructor
  · intro user w' h
    simp [UserHandler_Register, hv, h, StatusCreated, JSON.keys, JSON.get, List.lookup]
  · intro err w' h
    simp [UserHandler_Register, hv, h, StatusBadRequest, errorBody, JSON.keys, JSON.get,
      List.lookup]

/-- C17 on the demonstration store: a new registration, and one whose email exists. -/
theorem UserHandler_Register_status_witness :
    ((UserHandler_Register demoValidator demoLib 100 "u3" "s"
        (.ok ⟨"c@x.com", "carol", "longpw123", ""⟩) demoWorld).1.status = 201 ∧
      (UserHandler_Register demoValidator demoLib 100 "u3" "s"
        (.ok ⟨"c@x.com", "carol", "longpw123", ""⟩) demoWorld).1.body.keys
        = ["data", "meta"]) ∧
    ((UserHandler_Register demoValidator demoLib 100 "u3" "s"
        (.ok ⟨"a@x.com", "carol", "longpw123", ""⟩) demoWorld).1.status = 400 ∧
      (UserHandler_Register demoValidator demoLib 100 "u3" "s"
        (.ok ⟨"a@x.com", "carol", "longpw123", ""⟩) demoWorld).1.body.keys = ["error"]) := by
  have h1 := (UserHandler_Register_status demoValidator demoLib 100 "u3" "s"
    ⟨"c@x.com", "carol", "longpw123", ""⟩ demoWorld (by decide)).1 _ _ rfl
  have h2 := (UserHandler_Register_status demoValidator demoLib 100 "u3" "s"
    ⟨"a@x.com", "carol", "longpw123", ""⟩ demoWorld (by decide)).2 _ _ rfl
  exact ⟨⟨h1.1, h1.2.1⟩, ⟨h2.1, h2.2.1⟩⟩

/-- C18: for a request that binds and passes validation, the Login handler answers 200
with a body whose `data` object has the keys `access_token`, `refresh_token` and `user`
when the service's Login succeeds, and 401 with a body whose only key is `error` (code
LOGIN_FAILED, the error's text as message) when the service's Login returns any error;
the store it leaves is the one Login leaves. -/
theorem UserHandler_Login_status (V : Validator) (L : Lib) (secret : String) (now : Nat)
    (jti sid : String) (req : LoginRequest) (w : World)
    (hv : V.StructLoginRequest req = none) :
    (∀ resp w', Login L secret now jti sid req w = (.ok resp, w') →
      (UserHandler_Login V L secret now jti sid (.ok req) w).1.status = 200 ∧
      (UserHandler_Login V L secret now jti sid (.ok req) w).1.body.keys = ["data", "meta"] ∧
      ((UserHandler_Login V L secret now jti sid (.ok req) w).1.body.get "data").map JSON.keys
        = some ["access_token", "refresh_token", "user"] ∧
      (UserHandler_Login V L secret now jti sid (.ok req) w).1.body.get "data"
        = some (marshalLoginResponse resp) ∧
      (UserHandler_Login V L secret now jti sid (.ok req) w).2 = w') ∧
    (∀ err w', Login L secret now jti sid req w = (.error err, w') →
      (UserHandler_Login V L secret now jti sid (.ok req) w).1.status = 401 ∧
      (UserHandler_Login V L secret now jti sid (.ok req) w).1.body.keys = ["error"] ∧
      (UserHandler_Login V L secret now jti sid (.ok req) w).1.body.get "error"
        = some (.obj [("code", .str "LOGIN_FAILED"), ("message", .str err.Error)]) ∧
      (UserHandler_Login V L secret now jti sid (.ok req) w).2 = w') := by
  constructor
  · intro resp w' h
    simp [UserHandler_Login, hv, h, StatusOK, JSON.keys, JSON.get, List.lookup,
      marshalLoginResponse]
  · intro err w' h
    simp [UserHandler_Login, hv, h, StatusUnauthorized, errorBody, JSON.keys, JSON.get,
      List.lookup]

/-- C18 on the demonstration store: the Active user logs in, and an unknown email does. -/
theorem UserHandler_Login_status_witness :
    ((UserHandler_Login demoValidator demoLib "k" 100 "j1" "s1"
        (.ok ⟨"a@x.com", "longpw123"⟩) demoWorld).1.status = 200 ∧
      ((UserHandler_Login demoValidator demoLib "k" 100 "j1" "s1"
        (.ok ⟨"a@x.com", "longpw123"⟩) demoWorld).1.body.get "data").map JSON.keys
        = some ["access_token", "refresh_token", "user"]) ∧
    ((UserHandler_Login demoValidator demoLib "k" 100 "j1" "s1"
        (.ok ⟨"wrong@x.com", "wrongpassword"⟩) demoWorld).1.status = 401 ∧
      (UserHandler_Login demoValidator demoLib "k" 100 "j1" "s1"
        (.ok ⟨"wrong@x.com", "wrongpassword"⟩) demoWorld).1.body.keys = ["error"]) := by
  have h1 := (UserHandler_Login_status demoValidator demoLib "k" 100 "j1" "s1"
    ⟨"a@x.com", "longpw123"⟩ demoWorld (by decide)).1 _ _ rfl
  have h2 := (UserHandler_Login_status demoValidator demoLib "k" 100 "j1" "s1"
    ⟨"wrong@x.com", "wrongpassword"⟩ demoWorld (by decide)).2 _ _ rfl
  exact ⟨⟨h1.1, h1.2.2.1⟩, ⟨h2.1, h2.2.1⟩⟩

end UserService
